import Mathlib

/-!
Verification of the libdxf per-entity codec functions against the design
specification.

The DXF wire format alternates a numeric group-code line and a value line.
Every `dxf_<entity>_read` function in the source drives one token at a time:
it compares the code line against string literals and, in each matching
branch, consumes the following value line with `fscanf`.  We model the Token
Source (spec section 4.1) as a list of `Tok` pairs `(code, value)`, one pair
per iteration of the read loop; a record is terminated by a token whose code
is `0` (the sentinel).  Values are modelled exactly: reals as `Rat`, integers
as `Int`, text as `String`, so that wire round-trips are about the codec
logic and not about decimal formatting.

The repository snapshot does not contain `global.h`; the constants below
(`DXF_DEFAULT_LINETYPE`, `DXF_DEFAULT_LAYER`, `DXF_COLOR_BYLAYER`,
`DXF_MODELSPACE`, `DXF_PAPERSPACE`, `DXF_FLATLAND`, version numbers) are
modelled from the values documented in the headers that are present
(`hatch.h`, `text.h`, `oleframe.h` state "defaults to DXF_MODELSPACE (0)"
and "DXF_FLATLAND equals 0 (default)") and from the spec wording; only the
relative order of the version numbers matters to the code.

In the version-gated read branches the C source tests the version bound
before the code literal (`(ver <= AutoCAD_11) && (strcmp (s, "38") == 0)
&& ...`); the conjuncts there are pure, and the gated codes (38, 100)
match no later branch of their chain, so a failed guard always falls
through to the final unknown-tag else.  The embedding therefore tests the
code first and puts the version guard inside the branch, with the
unknown-tag outcome in its else; this is equivalent branch by branch.
The one gate whose last conjunct is not pure (an assignment, in the
dimension and attdef sources) is modelled separately and faithfully as
`dxf_dimension_read_gate38` and `dxf_attdef_read_gate38` below.
-/

/-- a token value: the text on the value line, already coerced to the type
the consuming `fscanf` conversion expects (`%d`/`%x`/`%hd`/`%ld` integers,
`%lf` reals, `%s` words). -/
inductive TVal where
  | i : Int → TVal
  | r : Rat → TVal
  | s : String → TVal
deriving DecidableEq, Repr

/-- a token: one group-code line together with its value line. -/
structure Tok where
  code : Int
  val : TVal
deriving DecidableEq, Repr

/-- diagnostics the read loops report on stderr; modelled as values. -/
inductive Diag where
  | unknownTag : Int → Diag
  | badSubclassMarker : String → Diag
deriving DecidableEq, Repr

/-- update helper: apply `f` when the token value is an integer, else leave
`a` unchanged (an unmatched `fscanf` conversion leaves the variable as is). -/
def updI {α : Type} (v : TVal) (f : Int → α) (a : α) : α :=
  match v with
  | .i n => f n
  | _ => a

/-- update helper for `%lf` real conversions. -/
def updR {α : Type} (v : TVal) (f : Rat → α) (a : α) : α :=
  match v with
  | .r q => f q
  | _ => a

/-- update helper for `%s` string conversions. -/
def updS {α : Type} (v : TVal) (f : String → α) (a : α) : α :=
  match v with
  | .s m => f m
  | _ => a

/-- default linetype name; modelled from the spec (the format's named
default for an absent line-style name), `global.h` being absent from the
snapshot. -/
def DXF_DEFAULT_LINETYPE : String := "BYLAYER"

/-- default layer name; the source warning messages say "entity is
relocated to layer 0". -/
def DXF_DEFAULT_LAYER : String := "0"

/-- color BYLAYER, the DXF by-layer color index. -/
def DXF_COLOR_BYLAYER : Int := 256

/-- model space flag; documented in `oleframe.h` and `hatch.h` as
"defaults to DXF_MODELSPACE (0)". -/
def DXF_MODELSPACE : Int := 0

/-- paper space flag, the complement of `DXF_MODELSPACE`. -/
def DXF_PAPERSPACE : Int := 1

/-- flatland toggle; documented in `text.h` and `hatch.h` as
"DXF_FLATLAND equals 0 (default)". -/
def DXF_FLATLAND : Bool := false

/-- default linetype scale factor. -/
def DXF_DEFAULT_LINETYPE_SCALE : Rat := 1

/-- default visibility value. -/
def DXF_DEFAULT_VISIBILITY : Int := 0

/-- AutoCAD release numbers: only their relative order is used by the
source (comparisons such as `acad_version_number >= AutoCAD_13`). -/
def AutoCAD_11 : Nat := 11

/-- AutoCAD release 12. -/
def AutoCAD_12 : Nat := 12

/-- AutoCAD release 13. -/
def AutoCAD_13 : Nat := 13

/-- AutoCAD release 14. -/
def AutoCAD_14 : Nat := 14

/-- AutoCAD release 2004. -/
def AutoCAD_2004 : Nat := 2004

/-- AutoCAD release 2007. -/
def AutoCAD_2007 : Nat := 2007

/-- the input side of a `DxfFile`: the active format version and the token
stream positioned just after the type-announcing pair. -/
structure DxfFileIn where
  acad_version_number : Nat
  toks : List Tok

/-- a DXF ARC entity (`arc.h`): scalar fields as used by `arc.c`.  The
`next` sibling pointer is not modelled (the spec models sibling chains as
owning sequences, and no claim concerns it). -/
@[ext]
structure DxfArc where
  id_code : Int
  linetype : String
  layer : String
  x0 : Rat
  y0 : Rat
  z0 : Rat
  extr_x0 : Rat
  extr_y0 : Rat
  extr_z0 : Rat
  elevation : Rat
  thickness : Rat
  linetype_scale : Rat
  visibility : Int
  radius : Rat
  start_angle : Rat
  end_angle : Rat
  color : Int
  paperspace : Int
  dictionary_owner_soft : String
  dictionary_owner_hard : String
deriving DecidableEq, Repr

/-- `dxf_arc_new`: allocation with all bytes zeroed. -/
def dxf_arc_new : DxfArc where
  id_code := 0
  linetype := ""
  layer := ""
  x0 := 0
  y0 := 0
  z0 := 0
  extr_x0 := 0
  extr_y0 := 0
  extr_z0 := 0
  elevation := 0
  thickness := 0
  linetype_scale := 0
  visibility := 0
  radius := 0
  start_angle := 0
  end_angle := 0
  color := 0
  paperspace := 0
  dictionary_owner_soft := ""
  dictionary_owner_hard := ""

/-- `dxf_arc_init` applied to a fresh allocation: every field set to its
documented default (`arc.c` lines 120-140). -/
def dxf_arc_init : DxfArc where
  id_code := 0
  linetype := DXF_DEFAULT_LINETYPE
  layer := DXF_DEFAULT_LAYER
  x0 := 0
  y0 := 0
  z0 := 0
  extr_x0 := 0
  extr_y0 := 0
  extr_z0 := 0
  elevation := 0
  thickness := 0
  linetype_scale := DXF_DEFAULT_LINETYPE_SCALE
  visibility := DXF_DEFAULT_VISIBILITY
  radius := 0
  start_angle := 0
  end_angle := 0
  color := DXF_COLOR_BYLAYER
  paperspace := DXF_MODELSPACE
  dictionary_owner_soft := ""
  dictionary_owner_hard := ""

/-- one iteration of the `dxf_arc_read` dispatch chain (`arc.c` lines
207-375), in source order, for the token `t`; the pair carries the entity
being filled and the diagnostics reported so far. -/
def dxf_arc_read_step (ver : Nat) (st : DxfArc × List Diag) (t : Tok) :
    DxfArc × List Diag :=
  let a := st.1
  let ds := st.2
  if t.code = 5 then (updI t.val (fun n => {a with id_code := n}) a, ds)
  else if t.code = 6 then (updS t.val (fun m => {a with linetype := m}) a, ds)
  else if t.code = 8 then (updS t.val (fun m => {a with layer := m}) a, ds)
  else if t.code = 10 then (updR t.val (fun q => {a with x0 := q}) a, ds)
  else if t.code = 20 then (updR t.val (fun q => {a with y0 := q}) a, ds)
  else if t.code = 30 then (updR t.val (fun q => {a with z0 := q}) a, ds)
  else if t.code = 38 then
    (if ver ≤ AutoCAD_11 ∧ a.elevation ≠ 0 then
       (updR t.val (fun q => {a with elevation := q}) a, ds)
     else (a, ds ++ [.unknownTag t.code]))
  else if t.code = 39 then (updR t.val (fun q => {a with thickness := q}) a, ds)
  else if t.code = 40 then (updR t.val (fun q => {a with radius := q}) a, ds)
  else if t.code = 48 then (updR t.val (fun q => {a with linetype_scale := q}) a, ds)
  else if t.code = 50 then (updR t.val (fun q => {a with start_angle := q}) a, ds)
  else if t.code = 51 then (updR t.val (fun q => {a with end_angle := q}) a, ds)
  else if t.code = 60 then (updI t.val (fun n => {a with visibility := n}) a, ds)
  else if t.code = 62 then (updI t.val (fun n => {a with color := n}) a, ds)
  else if t.code = 67 then (updI t.val (fun n => {a with paperspace := n}) a, ds)
  else if t.code = 100 then
    (a,
     if AutoCAD_13 ≤ ver then
       updS t.val
         (fun m =>
           if m ≠ "AcDbEntity" ∧ m ≠ "AcDbCircle" then ds ++ [.badSubclassMarker m]
           else ds)
         ds
     else ds ++ [.unknownTag t.code])
  else if t.code = 210 then (updR t.val (fun q => {a with extr_x0 := q}) a, ds)
  else if t.code = 220 then (updR t.val (fun q => {a with extr_y0 := q}) a, ds)
  else if t.code = 230 then (updR t.val (fun q => {a with extr_z0 := q}) a, ds)
  else if t.code = 330 then
    (updS t.val (fun m => {a with dictionary_owner_soft := m}) a, ds)
  else if t.code = 360 then
    (updS t.val (fun m => {a with dictionary_owner_hard := m}) a, ds)
  else if t.code = 999 then (a, ds)
  else (a, ds ++ [.unknownTag t.code])

/-- the `dxf_arc_read` token loop: process tokens until the sentinel code
`0` (or the stream ends). -/
def dxf_arc_read_loop (ver : Nat) : List Tok → DxfArc × List Diag → DxfArc × List Diag
  | [], st => st
  | t :: ts, st =>
    if t.code = 0 then st
    else dxf_arc_read_loop ver ts (dxf_arc_read_step ver st t)

/-- the post-loop back-fill of `dxf_arc_read` ("Handle omitted members
and/or illegal values", `arc.c` lines 377-385). -/
def dxf_arc_read_post (a : DxfArc) : DxfArc :=
  let a1 := if a.linetype = "" then {a with linetype := DXF_DEFAULT_LINETYPE} else a
  if a1.layer = "" then {a1 with layer := DXF_DEFAULT_LAYER} else a1

/-- `dxf_arc_read` on a non-NULL file pointer and an already-present
entity: loop then back-fill. -/
def dxf_arc_read_core (ver : Nat) (toks : List Tok) (a : DxfArc) :
    DxfArc × List Diag :=
  let st := dxf_arc_read_loop ver toks (a, [])
  (dxf_arc_read_post st.1, st.2)

/-- `dxf_arc_read` including the NULL checks (`arc.c` lines 179-194): a
NULL file pointer yields NULL; a NULL entity pointer is replaced by a
freshly allocated and initialized entity. -/
def dxf_arc_read (fp : Option DxfFileIn) (arc : Option DxfArc) :
    Option (DxfArc × List Diag) :=
  match fp with
  | none => none
  | some f =>
    some (dxf_arc_read_core f.acad_version_number f.toks (arc.getD dxf_arc_init))

/-- result of a write call: the C return status (`true` for
`EXIT_SUCCESS`), the emitted token sequence, and the entity struct as the
caller sees it after the call (the source mutates it in place in some
paths). -/
structure WriteResult (α : Type) where
  ok : Bool
  tokens : List Tok
  entity : α
deriving Repr

/-- the id pair of the arc output phase (`arc.c` lines 505-508). -/
def arcWid (a : DxfArc) : List Tok :=
  if a.id_code ≠ -1 then [⟨5, .i a.id_code⟩] else []

/-- the ACAD_REACTORS group of the arc output phase (`arc.c` lines
519-525). -/
def arcWreactors (ver : Nat) (a : DxfArc) : List Tok :=
  if a.dictionary_owner_soft ≠ "" ∧ AutoCAD_14 ≤ ver then
    [⟨102, .s "\x7bACAD_REACTORS"⟩, ⟨330, .s a.dictionary_owner_soft⟩,
     ⟨102, .s "\x7d"⟩]
  else []

/-- the ACAD_XDICTIONARY group of the arc output phase (`arc.c` lines
526-532). -/
def arcWxdict (ver : Nat) (a : DxfArc) : List Tok :=
  if a.dictionary_owner_hard ≠ "" ∧ AutoCAD_14 ≤ ver then
    [⟨102, .s "\x7bACAD_XDICTIONARY"⟩, ⟨360, .s a.dictionary_owner_hard⟩,
     ⟨102, .s "\x7d"⟩]
  else []

/-- the AcDbEntity subclass marker of the arc output phase (`arc.c` lines
533-536). -/
def arcWentity (ver : Nat) : List Tok :=
  if AutoCAD_13 ≤ ver then [⟨100, .s "AcDbEntity"⟩] else []

/-- the paperspace pair of the arc output phase (`arc.c` lines 537-540). -/
def arcWpaper (a : DxfArc) : List Tok :=
  if a.paperspace = DXF_PAPERSPACE then [⟨67, .i DXF_PAPERSPACE⟩] else []

/-- the layer pair of the arc output phase (`arc.c` line 541). -/
def arcWlayer (a : DxfArc) : List Tok := [⟨8, .s a.layer⟩]

/-- the linetype pair of the arc output phase (`arc.c` lines 542-545). -/
def arcWltype (a : DxfArc) : List Tok :=
  if a.linetype ≠ DXF_DEFAULT_LINETYPE then [⟨6, .s a.linetype⟩] else []

/-- the elevation pair of the arc output phase (`arc.c` lines 546-551). -/
def arcWelev (ver : Nat) (a : DxfArc) : List Tok :=
  if ver ≤ AutoCAD_11 ∧ DXF_FLATLAND = true ∧ a.elevation ≠ 0 then
    [⟨38, .r a.elevation⟩]
  else []

/-- the color pair of the arc output phase (`arc.c` lines 552-555). -/
def arcWcolor (a : DxfArc) : List Tok :=
  if a.color ≠ DXF_COLOR_BYLAYER then [⟨62, .i a.color⟩] else []

/-- the linetype scale pair of the arc output phase (`arc.c` lines
556-559). -/
def arcWscale (a : DxfArc) : List Tok :=
  if a.linetype_scale ≠ 1 then [⟨48, .r a.linetype_scale⟩] else []

/-- the visibility pair of the arc output phase (`arc.c` lines 560-563). -/
def arcWvis (a : DxfArc) : List Tok :=
  if a.visibility ≠ 0 then [⟨60, .i a.visibility⟩] else []

/-- the AcDbCircle subclass marker of the arc output phase (`arc.c` lines
564-567). -/
def arcWcircle (ver : Nat) : List Tok :=
  if AutoCAD_13 ≤ ver then [⟨100, .s "AcDbCircle"⟩] else []

/-- the thickness pair of the arc output phase (`arc.c` lines 568-571). -/
def arcWthick (a : DxfArc) : List Tok :=
  if a.thickness ≠ 0 then [⟨39, .r a.thickness⟩] else []

/-- the center point and radius pairs of the arc output phase (`arc.c`
lines 572-575). -/
def arcWgeom (a : DxfArc) : List Tok :=
  [⟨10, .r a.x0⟩, ⟨20, .r a.y0⟩, ⟨30, .r a.z0⟩, ⟨40, .r a.radius⟩]

/-- the AcDbArc subclass marker of the arc output phase (`arc.c` lines
576-579). -/
def arcWarcmark (ver : Nat) : List Tok :=
  if AutoCAD_13 ≤ ver then [⟨100, .s "AcDbArc"⟩] else []

/-- the start and end angle pairs of the arc output phase (`arc.c` lines
580-581). -/
def arcWangles (a : DxfArc) : List Tok :=
  [⟨50, .r a.start_angle⟩, ⟨51, .r a.end_angle⟩]

/-- the extrusion vector pairs of the arc output phase (`arc.c` lines
582-590): emitted only when the version is at least R12 and the X and Y
components are nonzero and the Z component is not one, all at once. -/
def arcWextr (ver : Nat) (a : DxfArc) : List Tok :=
  if AutoCAD_12 ≤ ver ∧ a.extr_x0 ≠ 0 ∧ a.extr_y0 ≠ 0 ∧ a.extr_z0 ≠ 1 then
    [⟨210, .r a.extr_x0⟩, ⟨220, .r a.extr_y0⟩, ⟨230, .r a.extr_z0⟩]
  else []

/-- the token sequence emitted by the output phase of `dxf_arc_write`
(`arc.c` lines 503-590), for an entity that already passed the checks:
the concatenation of the per-field chunks above, in source order. -/
def dxf_arc_write_body (ver : Nat) (a : DxfArc) : List Tok :=
  arcWid a ++ arcWreactors ver a ++ arcWxdict ver a ++ arcWentity ver
  ++ arcWpaper a ++ arcWlayer a ++ arcWltype a ++ arcWelev ver a
  ++ arcWcolor a ++ arcWscale a ++ arcWvis a ++ arcWcircle ver
  ++ arcWthick a ++ arcWgeom a ++ arcWarcmark ver ++ arcWangles a
  ++ arcWextr ver a

/-- `dxf_arc_write` (`arc.c` lines 405-595): the validity checks in source
order, the in-place reset of empty linetype and layer strings, then the
output phase headed by the type-announcing pair `(0, ARC)`. -/
def dxf_arc_write (ver : Nat) (arc : DxfArc) : WriteResult DxfArc :=
  if arc.start_angle = arc.end_angle then ⟨false, [], arc⟩
  else if 360 < arc.start_angle then ⟨false, [], arc⟩
  else if arc.start_angle < 0 then ⟨false, [], arc⟩
  else if 360 < arc.end_angle then ⟨false, [], arc⟩
  else if arc.end_angle < 0 then ⟨false, [], arc⟩
  else if arc.radius = 0 then ⟨false, [], arc⟩
  else
    let a1 := if arc.linetype = "" then {arc with linetype := DXF_DEFAULT_LINETYPE}
              else arc
    let a2 := if a1.layer = "" then {a1 with layer := DXF_DEFAULT_LAYER} else a1
    ⟨true, ⟨0, .s "ARC"⟩ :: dxf_arc_write_body ver a2, a2⟩

/-- a DXF LINE entity (`line.h`): scalar fields as used by `line.c`. -/
@[ext]
structure DxfLine where
  id_code : Int
  linetype : String
  layer : String
  x0 : Rat
  y0 : Rat
  z0 : Rat
  x1 : Rat
  y1 : Rat
  z1 : Rat
  extr_x0 : Rat
  extr_y0 : Rat
  extr_z0 : Rat
  elevation : Rat
  thickness : Rat
  linetype_scale : Rat
  visibility : Int
  color : Int
  paperspace : Int
  dictionary_owner_soft : String
  dictionary_owner_hard : String
deriving DecidableEq, Repr

/-- `dxf_line_init` applied to a fresh allocation (`line.c` lines 119-139). -/
def dxf_line_init : DxfLine where
  id_code := 0
  linetype := DXF_DEFAULT_LINETYPE
  layer := DXF_DEFAULT_LAYER
  x0 := 0
  y0 := 0
  z0 := 0
  x1 := 0
  y1 := 0
  z1 := 0
  extr_x0 := 0
  extr_y0 := 0
  extr_z0 := 0
  elevation := 0
  thickness := 0
  linetype_scale := DXF_DEFAULT_LINETYPE_SCALE
  visibility := DXF_DEFAULT_VISIBILITY
  color := DXF_COLOR_BYLAYER
  paperspace := DXF_MODELSPACE
  dictionary_owner_soft := ""
  dictionary_owner_hard := ""

/-- one iteration of the `dxf_line_read` dispatch chain (`line.c` lines
206-374), in source order. -/
def dxf_line_read_step (ver : Nat) (st : DxfLine × List Diag) (t : Tok) :
    DxfLine × List Diag :=
  let a := st.1
  let ds := st.2
  if t.code = 5 then (updI t.val (fun n => {a with id_code := n}) a, ds)
  else if t.code = 6 then (updS t.val (fun m => {a with linetype := m}) a, ds)
  else if t.code = 8 then (updS t.val (fun m => {a with layer := m}) a, ds)
  else if t.code = 10 then (updR t.val (fun q => {a with x0 := q}) a, ds)
  else if t.code = 20 then (updR t.val (fun q => {a with y0 := q}) a, ds)
  else if t.code = 30 then (updR t.val (fun q => {a with z0 := q}) a, ds)
  else if t.code = 11 then (updR t.val (fun q => {a with x1 := q}) a, ds)
  else if t.code = 21 then (updR t.val (fun q => {a with y1 := q}) a, ds)
  else if t.code = 31 then (updR t.val (fun q => {a with z1 := q}) a, ds)
  else if t.code = 38 then
    (if ver ≤ AutoCAD_11 ∧ a.elevation ≠ 0 then
       (updR t.val (fun q => {a with elevation := q}) a, ds)
     else (a, ds ++ [.unknownTag t.code]))
  else if t.code = 39 then (updR t.val (fun q => {a with thickness := q}) a, ds)
  else if t.code = 48 then (updR t.val (fun q => {a with linetype_scale := q}) a, ds)
  else if t.code = 60 then (updI t.val (fun n => {a with visibility := n}) a, ds)
  else if t.code = 62 then (updI t.val (fun n => {a with color := n}) a, ds)
  else if t.code = 67 then (updI t.val (fun n => {a with paperspace := n}) a, ds)
  else if t.code = 100 then
    (a,
     if AutoCAD_13 ≤ ver then
       updS t.val
         (fun m =>
           if m ≠ "AcDbEntity" ∧ m ≠ "AcDbLine" then ds ++ [.badSubclassMarker m]
           else ds)
         ds
     else ds ++ [.unknownTag t.code])
  else if t.code = 210 then (updR t.val (fun q => {a with extr_x0 := q}) a, ds)
  else if t.code = 220 then (updR t.val (fun q => {a with extr_y0 := q}) a, ds)
  else if t.code = 230 then (updR t.val (fun q => {a with extr_z0 := q}) a, ds)
  else if t.code = 330 then
    (updS t.val (fun m => {a with dictionary_owner_soft := m}) a, ds)
  else if t.code = 360 then
    (updS t.val (fun m => {a with dictionary_owner_hard := m}) a, ds)
  else if t.code = 999 then (a, ds)
  else (a, ds ++ [.unknownTag t.code])

/-- the `dxf_line_read` token loop. -/
def dxf_line_read_loop (ver : Nat) : List Tok → DxfLine × List Diag → DxfLine × List Diag
  | [], st => st
  | t :: ts, st =>
    if t.code = 0 then st
    else dxf_line_read_loop ver ts (dxf_line_read_step ver st t)

/-- the post-loop back-fill of `dxf_line_read` (`line.c` lines 376-384). -/
def dxf_line_read_post (a : DxfLine) : DxfLine :=
  let a1 := if a.linetype = "" then {a with linetype := DXF_DEFAULT_LINETYPE} else a
  if a1.layer = "" then {a1 with layer := DXF_DEFAULT_LAYER} else a1

/-- `dxf_line_read` on a non-NULL file pointer and present entity. -/
def dxf_line_read_core (ver : Nat) (toks : List Tok) (a : DxfLine) :
    DxfLine × List Diag :=
  let st := dxf_line_read_loop ver toks (a, [])
  (dxf_line_read_post st.1, st.2)

/-- `dxf_line_read` including the NULL checks (`line.c` lines 178-193). -/
def dxf_line_read (fp : Option DxfFileIn) (line : Option DxfLine) :
    Option (DxfLine × List Diag) :=
  match fp with
  | none => none
  | some f =>
    some (dxf_line_read_core f.acad_version_number f.toks (line.getD dxf_line_init))

/-- the token sequence emitted by the output phase of `dxf_line_write`
(`line.c` lines 453-536). -/
def dxf_line_write_body (ver : Nat) (a : DxfLine) : List Tok :=
  (if a.id_code ≠ -1 then [⟨5, .i a.id_code⟩] else [])
  ++ (if a.dictionary_owner_soft ≠ "" ∧ AutoCAD_14 ≤ ver then
        [⟨102, .s "\x7bACAD_REACTORS"⟩, ⟨330, .s a.dictionary_owner_soft⟩,
         ⟨102, .s "\x7d"⟩]
      else [])
  ++ (if a.dictionary_owner_hard ≠ "" ∧ AutoCAD_14 ≤ ver then
        [⟨102, .s "\x7bACAD_XDICTIONARY"⟩, ⟨360, .s a.dictionary_owner_hard⟩,
         ⟨102, .s "\x7d"⟩]
      else [])
  ++ (if AutoCAD_13 ≤ ver then [⟨100, .s "AcDbEntity"⟩] else [])
  ++ (if a.paperspace = DXF_PAPERSPACE then [⟨67, .i DXF_PAPERSPACE⟩] else [])
  ++ [⟨8, .s a.layer⟩]
  ++ (if a.linetype ≠ DXF_DEFAULT_LINETYPE then [⟨6, .s a.linetype⟩] else [])
  ++ (if ver ≤ AutoCAD_11 ∧ DXF_FLATLAND = true ∧ a.elevation ≠ 0 then
        [⟨38, .r a.elevation⟩]
      else [])
  ++ (if a.color ≠ DXF_COLOR_BYLAYER then [⟨62, .i a.color⟩] else [])
  ++ (if a.linetype_scale ≠ 1 then [⟨48, .r a.linetype_scale⟩] else [])
  ++ (if a.visibility ≠ 0 then [⟨60, .i a.visibility⟩] else [])
  ++ (if AutoCAD_13 ≤ ver then [⟨100, .s "AcDbLine"⟩] else [])
  ++ (if a.thickness ≠ 0 then [⟨39, .r a.thickness⟩] else [])
  ++ [⟨10, .r a.x0⟩, ⟨20, .r a.y0⟩, ⟨30, .r a.z0⟩,
      ⟨11, .r a.x1⟩, ⟨21, .r a.y1⟩, ⟨31, .r a.z1⟩]
  ++ (if AutoCAD_12 ≤ ver ∧ a.extr_x0 ≠ 0 ∧ a.extr_y0 ≠ 0 ∧ a.extr_z0 ≠ 1 then
        [⟨210, .r a.extr_x0⟩, ⟨220, .r a.extr_y0⟩, ⟨230, .r a.extr_z0⟩]
      else [])

/-- `dxf_line_write` (`line.c` lines 404-541): the identical-endpoint
check, the in-place reset of an empty layer string (the linetype is not
checked here), then the output phase headed by `(0, LINE)`. -/
def dxf_line_write (ver : Nat) (line : DxfLine) : WriteResult DxfLine :=
  if line.x0 = line.x1 ∧ line.y0 = line.y1 ∧ line.z0 = line.z1 then
    ⟨false, [], line⟩
  else
    let a1 := if line.layer = "" then {line with layer := DXF_DEFAULT_LAYER}
              else line
    ⟨true, ⟨0, .s "LINE"⟩ :: dxf_line_write_body ver a1, a1⟩

/-- maximum number of repeated parameters per entity; `global.h` is absent
from the snapshot, the bound only caps the `310` emission loop here. -/
def DXF_MAX_PARAM : Nat := 10000

/-- a DXF SPLINE entity (`spline.h`): fields as used by `spline.c`.  The
repeated arrays (`x0[DXF_MAX_PARAM]` and friends) are modelled as total
maps from the array index. -/
@[ext]
structure DxfSpline where
  id_code : Int
  linetype : String
  layer : String
  elevation : Rat
  thickness : Rat
  linetype_scale : Rat
  visibility : Int
  color : Int
  paperspace : Int
  graphics_data_size : Int
  shadow_mode : Int
  dictionary_owner_soft : String
  material : String
  dictionary_owner_hard : String
  lineweight : Int
  plot_style_name : String
  color_value : Int
  color_name : String
  transparency : Int
  binary_graphics_data : Nat → String
  x0 : Nat → Rat
  y0 : Nat → Rat
  z0 : Nat → Rat
  x1 : Nat → Rat
  y1 : Nat → Rat
  z1 : Nat → Rat
  knot_value : Nat → Rat
  weight_value : Nat → Rat
  x2 : Rat
  y2 : Rat
  z2 : Rat
  x3 : Rat
  y3 : Rat
  z3 : Rat
  extr_x0 : Rat
  extr_y0 : Rat
  extr_z0 : Rat
  knot_tolerance : Rat
  control_point_tolerance : Rat
  fit_tolerance : Rat
  flag : Int
  degree : Int
  number_of_knots : Int
  number_of_control_points : Int
  number_of_fit_points : Int

/-- `dxf_spline_init` applied to a fresh allocation (`spline.c` lines
314-362). -/
def dxf_spline_init : DxfSpline where
  id_code := 0
  linetype := DXF_DEFAULT_LINETYPE
  layer := DXF_DEFAULT_LAYER
  elevation := 0
  thickness := 0
  linetype_scale := 1
  visibility := 0
  color := DXF_COLOR_BYLAYER
  paperspace := DXF_MODELSPACE
  graphics_data_size := 0
  shadow_mode := 0
  dictionary_owner_soft := ""
  material := ""
  dictionary_owner_hard := ""
  lineweight := 0
  plot_style_name := ""
  color_value := 0
  color_name := ""
  transparency := 0
  binary_graphics_data := fun _ => ""
  x0 := fun _ => 0
  y0 := fun _ => 0
  z0 := fun _ => 0
  x1 := fun _ => 0
  y1 := fun _ => 0
  z1 := fun _ => 0
  knot_value := fun _ => 0
  weight_value := fun _ => 0
  x2 := 0
  y2 := 0
  z2 := 0
  x3 := 0
  y3 := 0
  z3 := 0
  extr_x0 := 0
  extr_y0 := 0
  extr_z0 := 0
  knot_tolerance := 0
  control_point_tolerance := 0
  fit_tolerance := 0
  flag := 0
  degree := 0
  number_of_knots := 0
  number_of_control_points := 0
  number_of_fit_points := 0

/-- the running indices of `dxf_spline_read`, one per repeated code
(`spline.c` lines 400-434). -/
structure SplineIdx where
  i_x0 : Nat
  i_y0 : Nat
  i_z0 : Nat
  i_x1 : Nat
  i_y1 : Nat
  i_z1 : Nat
  i_knot_value : Nat
  i_weight_value : Nat
  i_graphics_data_size : Nat
deriving DecidableEq, Repr

/-- all spline read indices start at zero. -/
def splineIdx0 : SplineIdx := ⟨0, 0, 0, 0, 0, 0, 0, 0, 0⟩

/-- the state threaded through the `dxf_spline_read` loop. -/
structure SplineReadSt where
  ent : DxfSpline
  idx : SplineIdx
  diags : List Diag

/-- one iteration of the `dxf_spline_read` dispatch chain (`spline.c`
lines 447-764), in source order.  Note that the branches for codes `39`
(thickness) and `48` (linetype scale) also increment `i_knot_value`, as
the source does. -/
def dxf_spline_read_step (ver : Nat) (st : SplineReadSt) (t : Tok) : SplineReadSt :=
  let a := st.ent
  let ix := st.idx
  let ds := st.diags
  if t.code = 5 then ⟨updI t.val (fun n => {a with id_code := n}) a, ix, ds⟩
  else if t.code = 6 then ⟨updS t.val (fun m => {a with linetype := m}) a, ix, ds⟩
  else if t.code = 8 then ⟨updS t.val (fun m => {a with layer := m}) a, ix, ds⟩
  else if t.code = 10 then
    ⟨updR t.val (fun q => {a with x0 := Function.update a.x0 ix.i_x0 q}) a,
     {ix with i_x0 := ix.i_x0 + 1}, ds⟩
  else if t.code = 20 then
    ⟨updR t.val (fun q => {a with y0 := Function.update a.y0 ix.i_y0 q}) a,
     {ix with i_y0 := ix.i_y0 + 1}, ds⟩
  else if t.code = 30 then
    ⟨updR t.val (fun q => {a with z0 := Function.update a.z0 ix.i_z0 q}) a,
     {ix with i_z0 := ix.i_z0 + 1}, ds⟩
  else if t.code = 11 then
    ⟨updR t.val (fun q => {a with x1 := Function.update a.x1 ix.i_x1 q}) a,
     {ix with i_x1 := ix.i_x1 + 1}, ds⟩
  else if t.code = 21 then
    ⟨updR t.val (fun q => {a with y1 := Function.update a.y1 ix.i_y1 q}) a,
     {ix with i_y1 := ix.i_y1 + 1}, ds⟩
  else if t.code = 31 then
    ⟨updR t.val (fun q => {a with z1 := Function.update a.z1 ix.i_z1 q}) a,
     {ix with i_z1 := ix.i_z1 + 1}, ds⟩
  else if t.code = 12 then ⟨updR t.val (fun q => {a with x2 := q}) a, ix, ds⟩
  else if t.code = 22 then ⟨updR t.val (fun q => {a with y2 := q}) a, ix, ds⟩
  else if t.code = 32 then ⟨updR t.val (fun q => {a with z2 := q}) a, ix, ds⟩
  else if t.code = 13 then ⟨updR t.val (fun q => {a with x3 := q}) a, ix, ds⟩
  else if t.code = 23 then ⟨updR t.val (fun q => {a with y3 := q}) a, ix, ds⟩
  else if t.code = 33 then ⟨updR t.val (fun q => {a with z3 := q}) a, ix, ds⟩
  else if t.code = 38 then
    (if ver ≤ AutoCAD_11 ∧ a.elevation ≠ 0 then
       ⟨updR t.val (fun q => {a with elevation := q}) a, ix, ds⟩
     else ⟨a, ix, ds ++ [.unknownTag t.code]⟩)
  else if t.code = 39 then
    ⟨updR t.val (fun q => {a with thickness := q}) a,
     {ix with i_knot_value := ix.i_knot_value + 1}, ds⟩
  else if t.code = 40 then
    ⟨updR t.val
       (fun q => {a with knot_value := Function.update a.knot_value ix.i_knot_value q}) a,
     {ix with i_knot_value := ix.i_knot_value + 1}, ds⟩
  else if t.code = 41 then
    ⟨updR t.val
       (fun q =>
         {a with weight_value := Function.update a.weight_value ix.i_weight_value q}) a,
     {ix with i_weight_value := ix.i_weight_value + 1}, ds⟩
  else if t.code = 42 then ⟨updR t.val (fun q => {a with knot_tolerance := q}) a, ix, ds⟩
  else if t.code = 43 then
    ⟨updR t.val (fun q => {a with control_point_tolerance := q}) a, ix, ds⟩
  else if t.code = 44 then ⟨updR t.val (fun q => {a with fit_tolerance := q}) a, ix, ds⟩
  else if t.code = 48 then
    ⟨updR t.val (fun q => {a with linetype_scale := q}) a,
     {ix with i_knot_value := ix.i_knot_value + 1}, ds⟩
  else if t.code = 60 then ⟨updI t.val (fun n => {a with visibility := n}) a, ix, ds⟩
  else if t.code = 62 then ⟨updI t.val (fun n => {a with color := n}) a, ix, ds⟩
  else if t.code = 67 then ⟨updI t.val (fun n => {a with paperspace := n}) a, ix, ds⟩
  else if t.code = 70 then ⟨updI t.val (fun n => {a with flag := n}) a, ix, ds⟩
  else if t.code = 71 then ⟨updI t.val (fun n => {a with degree := n}) a, ix, ds⟩
  else if t.code = 72 then ⟨updI t.val (fun n => {a with number_of_knots := n}) a, ix, ds⟩
  else if t.code = 73 then
    ⟨updI t.val (fun n => {a with number_of_control_points := n}) a, ix, ds⟩
  else if t.code = 74 then
    ⟨updI t.val (fun n => {a with number_of_fit_points := n}) a, ix, ds⟩
  else if t.code = 92 then
    ⟨updI t.val (fun n => {a with graphics_data_size := n}) a, ix, ds⟩
  else if t.code = 284 then ⟨updI t.val (fun n => {a with shadow_mode := n}) a, ix, ds⟩
  else if t.code = 310 then
    ⟨updS t.val
       (fun m =>
         {a with binary_graphics_data :=
            Function.update a.binary_graphics_data ix.i_graphics_data_size m}) a,
     {ix with i_graphics_data_size := ix.i_graphics_data_size + 1}, ds⟩
  else if t.code = 330 then
    ⟨updS t.val (fun m => {a with dictionary_owner_soft := m}) a, ix, ds⟩
  else if t.code = 347 then ⟨updS t.val (fun m => {a with material := m}) a, ix, ds⟩
  else if t.code = 360 then
    ⟨updS t.val (fun m => {a with dictionary_owner_hard := m}) a, ix, ds⟩
  else if t.code = 370 then ⟨updI t.val (fun n => {a with lineweight := n}) a, ix, ds⟩
  else if t.code = 390 then
    ⟨updS t.val (fun m => {a with plot_style_name := m}) a, ix, ds⟩
  else if t.code = 420 then ⟨updI t.val (fun n => {a with color_value := n}) a, ix, ds⟩
  else if t.code = 430 then ⟨updS t.val (fun m => {a with color_name := m}) a, ix, ds⟩
  else if t.code = 440 then ⟨updI t.val (fun n => {a with transparency := n}) a, ix, ds⟩
  else if t.code = 999 then ⟨a, ix, ds⟩
  else ⟨a, ix, ds ++ [.unknownTag t.code]⟩

/-- the `dxf_spline_read` token loop. -/
def dxf_spline_read_loop (ver : Nat) : List Tok → SplineReadSt → SplineReadSt
  | [], st => st
  | t :: ts, st =>
    if t.code = 0 then st
    else dxf_spline_read_loop ver ts (dxf_spline_read_step ver st t)

/-- `dxf_spline_read` on a non-NULL file pointer and present entity,
including the post-loop back-fill (`spline.c` lines 766-774). -/
def dxf_spline_read_core (ver : Nat) (toks : List Tok) (a : DxfSpline) :
    DxfSpline × List Diag :=
  let st := dxf_spline_read_loop ver toks ⟨a, splineIdx0, []⟩
  let a1 := if st.ent.linetype = "" then {st.ent with linetype := DXF_DEFAULT_LINETYPE}
            else st.ent
  let a2 := if a1.layer = "" then {a1 with layer := DXF_DEFAULT_LAYER} else a1
  (a2, st.diags)

/-- the token sequence emitted by the output phase of `dxf_spline_write`
(`spline.c` lines 848-973); the lineweight `370`, linetype scale `48`,
graphics data size `92`, color value `420`, color name `430`,
transparency `440`, plot style `390` and shadow mode `284` pairs are
emitted unconditionally, with no version test. -/
def dxf_spline_write_body (ver : Nat) (a : DxfSpline) : List Tok :=
  (if a.id_code ≠ -1 then [⟨5, .i a.id_code⟩] else [])
  ++ (if a.dictionary_owner_soft ≠ "" ∧ AutoCAD_14 ≤ ver then
        [⟨102, .s "\x7bACAD_REACTORS"⟩, ⟨330, .s a.dictionary_owner_soft⟩,
         ⟨102, .s "\x7d"⟩]
      else [])
  ++ (if a.dictionary_owner_hard ≠ "" ∧ AutoCAD_14 ≤ ver then
        [⟨102, .s "\x7bACAD_XDICTIONARY"⟩, ⟨360, .s a.dictionary_owner_hard⟩,
         ⟨102, .s "\x7d"⟩]
      else [])
  ++ (if AutoCAD_13 ≤ ver then [⟨100, .s "AcDbEntity"⟩] else [])
  ++ (if a.paperspace ≠ DXF_MODELSPACE then [⟨67, .i DXF_PAPERSPACE⟩] else [])
  ++ [⟨8, .s a.layer⟩]
  ++ (if a.linetype ≠ DXF_DEFAULT_LINETYPE then [⟨6, .s a.linetype⟩] else [])
  ++ (if ver ≤ AutoCAD_11 ∧ DXF_FLATLAND = true ∧ a.elevation ≠ 0 then
        [⟨38, .r a.elevation⟩]
      else [])
  ++ (if AutoCAD_2007 ≤ ver ∧ a.material ≠ "" then [⟨347, .s a.material⟩] else [])
  ++ (if a.color ≠ DXF_COLOR_BYLAYER then [⟨62, .i a.color⟩] else [])
  ++ (if a.thickness ≠ 0 then [⟨39, .r a.thickness⟩] else [])
  ++ [⟨370, .i a.lineweight⟩, ⟨48, .r a.linetype_scale⟩]
  ++ (if a.visibility ≠ 0 then [⟨60, .i a.visibility⟩] else [])
  ++ [⟨92, .i a.graphics_data_size⟩]
  ++ ((List.range DXF_MAX_PARAM).takeWhile (fun i => a.binary_graphics_data i ≠ "")
        |>.map (fun i => ⟨310, .s (a.binary_graphics_data i)⟩))
  ++ [⟨420, .i a.color_value⟩, ⟨430, .s a.color_name⟩, ⟨440, .i a.transparency⟩,
      ⟨390, .s a.plot_style_name⟩, ⟨284, .i a.shadow_mode⟩, ⟨100, .s "AcDbSpline"⟩]
  ++ (if AutoCAD_12 ≤ ver ∧ a.extr_x0 ≠ 0 ∧ a.extr_y0 ≠ 0 ∧ a.extr_z0 ≠ 1 then
        [⟨210, .r a.extr_x0⟩, ⟨220, .r a.extr_y0⟩, ⟨230, .r a.extr_z0⟩]
      else [])
  ++ [⟨70, .i a.flag⟩, ⟨71, .i a.degree⟩, ⟨72, .i a.number_of_knots⟩,
      ⟨73, .i a.number_of_control_points⟩, ⟨74, .i a.number_of_fit_points⟩,
      ⟨42, .r a.knot_tolerance⟩, ⟨43, .r a.control_point_tolerance⟩,
      ⟨12, .r a.x2⟩, ⟨22, .r a.y2⟩, ⟨32, .r a.z2⟩,
      ⟨13, .r a.x3⟩, ⟨23, .r a.y3⟩, ⟨33, .r a.z3⟩]
  ++ ((List.range a.number_of_knots.toNat).map (fun i => ⟨40, .r (a.knot_value i)⟩))
  ++ (if a.number_of_fit_points ≠ 0 then
        (List.range a.number_of_fit_points.toNat).map
          (fun i => ⟨41, .r (a.weight_value i)⟩)
      else [])
  ++ ((List.range a.number_of_control_points.toNat).map
        (fun i => [⟨10, .r (a.x0 i)⟩, ⟨20, .r (a.y0 i)⟩, ⟨30, .r (a.z0 i)⟩])).flatten
  ++ ((List.range a.number_of_fit_points.toNat).map
        (fun i => [⟨11, .r (a.x1 i)⟩, ⟨21, .r (a.y1 i)⟩, ⟨31, .r (a.z1 i)⟩])).flatten

/-- `dxf_spline_write` (`spline.c` lines 791-979): the version check
(fails below R13), the in-place reset of empty linetype and layer
strings, then the output phase headed by `(0, SPLINE)`. -/
def dxf_spline_write (ver : Nat) (spline : DxfSpline) : WriteResult DxfSpline :=
  if ver < AutoCAD_13 then ⟨false, [], spline⟩
  else
    let a1 := if spline.linetype = "" then
                {spline with linetype := DXF_DEFAULT_LINETYPE}
              else spline
    let a2 := if a1.layer = "" then {a1 with layer := DXF_DEFAULT_LAYER} else a1
    ⟨true, ⟨0, .s "SPLINE"⟩ :: dxf_spline_write_body ver a2, a2⟩

/-- a polyline vertex as touched by `lwpolyline.c` (the full `DxfVertex`
lives in `vertex.h`, absent from the snapshot; only these five members are
accessed here, and `dxf_vertex_new` zeroes the whole struct). -/
@[ext]
structure DxfVertex where
  x0 : Rat
  y0 : Rat
  start_width : Rat
  end_width : Rat
  bulge : Rat
deriving DecidableEq, Repr

/-- `dxf_vertex_new`: allocation with all bytes zeroed. -/
def dxf_vertex_new : DxfVertex := ⟨0, 0, 0, 0, 0⟩

/-- a DXF LWPOLYLINE entity (`lwpolyline.h`): scalar fields as used by
`lwpolyline.c`; the linked vertex list is modelled as the owning sequence
of nodes, the last of which is the node the read loop is still filling. -/
@[ext]
structure DxfLWPolyline where
  id_code : Int
  linetype : String
  layer : String
  elevation : Rat
  thickness : Rat
  linetype_scale : Rat
  visibility : Int
  constant_width : Rat
  color : Int
  paperspace : Int
  flag : Int
  number_vertices : Int
  extr_x0 : Rat
  extr_y0 : Rat
  extr_z0 : Rat
  dictionary_owner_soft : String
  dictionary_owner_hard : String
  vertices : List DxfVertex
deriving DecidableEq, Repr

/-- `dxf_lwpolyline_init` applied to a fresh allocation (`lwpolyline.c`
lines 106-124): the vertex list starts as one zeroed node. -/
def dxf_lwpolyline_init : DxfLWPolyline where
  id_code := 0
  linetype := DXF_DEFAULT_LINETYPE
  layer := DXF_DEFAULT_LAYER
  elevation := 0
  thickness := 0
  linetype_scale := DXF_DEFAULT_LINETYPE_SCALE
  visibility := DXF_DEFAULT_VISIBILITY
  constant_width := 0
  color := DXF_COLOR_BYLAYER
  paperspace := DXF_MODELSPACE
  flag := 0
  number_vertices := 0
  extr_x0 := 0
  extr_y0 := 0
  extr_z0 := 0
  dictionary_owner_soft := ""
  dictionary_owner_hard := ""
  vertices := [dxf_vertex_new]

/-- the state threaded through the `dxf_lwpolyline_read` loop: the entity
without its vertex list, the list of vertices already closed by a bulge
token, and the node `iter` currently points at. -/
structure LwReadSt where
  ent : DxfLWPolyline
  done : List DxfVertex
  cur : DxfVertex
  diags : List Diag

/-- one iteration of the `dxf_lwpolyline_read` dispatch chain
(`lwpolyline.c` lines 187-370), in source order.  The vertex codes
`10`, `20`, `40`, `41` overwrite the node `iter` points at; only the
bulge code `42` allocates a fresh node and advances `iter` to it. -/
def dxf_lwpolyline_read_step (ver : Nat) (st : LwReadSt) (t : Tok) : LwReadSt :=
  let a := st.ent
  let ds := st.diags
  if t.code = 5 then {st with ent := updI t.val (fun n => {a with id_code := n}) a}
  else if t.code = 6 then
    {st with ent := updS t.val (fun m => {a with linetype := m}) a}
  else if t.code = 8 then {st with ent := updS t.val (fun m => {a with layer := m}) a}
  else if t.code = 10 then
    {st with cur := updR t.val (fun q => {st.cur with x0 := q}) st.cur}
  else if t.code = 20 then
    {st with cur := updR t.val (fun q => {st.cur with y0 := q}) st.cur}
  else if t.code = 38 then
    (if ver ≤ AutoCAD_11 ∧ a.elevation ≠ 0 then
       {st with ent := updR t.val (fun q => {a with elevation := q}) a}
     else {st with diags := ds ++ [.unknownTag t.code]})
  else if t.code = 39 then
    {st with ent := updR t.val (fun q => {a with thickness := q}) a}
  else if t.code = 40 then
    {st with cur := updR t.val (fun q => {st.cur with start_width := q}) st.cur}
  else if t.code = 41 then
    {st with cur := updR t.val (fun q => {st.cur with end_width := q}) st.cur}
  else if t.code = 42 then
    match t.val with
    | .r q => {st with done := st.done ++ [{st.cur with bulge := q}],
                       cur := dxf_vertex_new}
    | _ => {st with done := st.done ++ [st.cur], cur := dxf_vertex_new}
  else if t.code = 43 then
    {st with ent := updR t.val (fun q => {a with constant_width := q}) a}
  else if t.code = 48 then
    {st with ent := updR t.val (fun q => {a with linetype_scale := q}) a}
  else if t.code = 60 then
    {st with ent := updI t.val (fun n => {a with visibility := n}) a}
  else if t.code = 62 then {st with ent := updI t.val (fun n => {a with color := n}) a}
  else if t.code = 67 then
    {st with ent := updI t.val (fun n => {a with paperspace := n}) a}
  else if t.code = 70 then {st with ent := updI t.val (fun n => {a with flag := n}) a}
  else if t.code = 90 then
    {st with ent := updI t.val (fun n => {a with number_vertices := n}) a}
  else if t.code = 100 then
    {st with diags := if AutoCAD_12 ≤ ver then ds else ds ++ [.unknownTag t.code]}
  else if t.code = 210 then
    {st with ent := updR t.val (fun q => {a with extr_x0 := q}) a}
  else if t.code = 220 then
    {st with ent := updR t.val (fun q => {a with extr_y0 := q}) a}
  else if t.code = 230 then
    {st with ent := updR t.val (fun q => {a with extr_z0 := q}) a}
  else if t.code = 330 then
    {st with ent := updS t.val (fun m => {a with dictionary_owner_soft := m}) a}
  else if t.code = 360 then
    {st with ent := updS t.val (fun m => {a with dictionary_owner_hard := m}) a}
  else if t.code = 999 then st
  else {st with diags := ds ++ [.unknownTag t.code]}

/-- the `dxf_lwpolyline_read` token loop. -/
def dxf_lwpolyline_read_loop (ver : Nat) : List Tok → LwReadSt → LwReadSt
  | [], st => st
  | t :: ts, st =>
    if t.code = 0 then st
    else dxf_lwpolyline_read_loop ver ts (dxf_lwpolyline_read_step ver st t)

/-- `dxf_lwpolyline_read` on a non-NULL file pointer and present entity:
the loop starts with `iter` on the first (and only) node of the entity
created by `dxf_lwpolyline_init`; after the loop the final node keeps a
NULL successor and the blank linetype and layer are back-filled
(`lwpolyline.c` lines 372-384). -/
def dxf_lwpolyline_read_core (ver : Nat) (toks : List Tok) (a : DxfLWPolyline) :
    DxfLWPolyline × List Diag :=
  let st0 : LwReadSt := ⟨a, [], a.vertices.headD dxf_vertex_new, []⟩
  let st := dxf_lwpolyline_read_loop ver toks st0
  let a1 := {st.ent with vertices := st.done ++ [st.cur]}
  let a2 := if a1.linetype = "" then {a1 with linetype := DXF_DEFAULT_LINETYPE} else a1
  let a3 := if a2.layer = "" then {a2 with layer := DXF_DEFAULT_LAYER} else a2
  (a3, st.diags)

/-- a DXF HELIX entity (`helix.h`): fields as used by `helix.c`,
including the embedded `spline` member the nested AcDbSpline sub-grammar
fills. -/
@[ext]
structure DxfHelix where
  id_code : Int
  linetype : String
  layer : String
  x0 : Rat
  y0 : Rat
  z0 : Rat
  x1 : Rat
  y1 : Rat
  z1 : Rat
  x2 : Rat
  y2 : Rat
  z2 : Rat
  thickness : Rat
  radius : Rat
  number_of_turns : Rat
  turn_height : Rat
  linetype_scale : Rat
  visibility : Int
  color : Int
  paperspace : Int
  major_release_number : Int
  maintainance_release_number : Int
  graphics_data_size : Int
  constraint_type : Int
  shadow_mode : Int
  handedness : Int
  binary_graphics_data : Nat → String
  dictionary_owner_soft : String
  material : String
  dictionary_owner_hard : String
  lineweight : Int
  plot_style_name : String
  color_value : Int
  color_name : String
  transparency : Int
  spline : DxfSpline

/-- `dxf_helix_init` applied to a fresh allocation (`helix.c` lines
112-151). -/
def dxf_helix_init : DxfHelix where
  id_code := 0
  linetype := DXF_DEFAULT_LINETYPE
  layer := DXF_DEFAULT_LAYER
  x0 := 0
  y0 := 0
  z0 := 0
  x1 := 0
  y1 := 0
  z1 := 0
  x2 := 0
  y2 := 0
  z2 := 0
  thickness := 0
  radius := 0
  number_of_turns := 0
  turn_height := 0
  linetype_scale := 0
  visibility := 0
  color := DXF_COLOR_BYLAYER
  paperspace := DXF_MODELSPACE
  major_release_number := 0
  maintainance_release_number := 0
  graphics_data_size := 0
  constraint_type := 0
  shadow_mode := 0
  handedness := 0
  binary_graphics_data := fun _ => ""
  dictionary_owner_soft := ""
  material := ""
  dictionary_owner_hard := ""
  lineweight := 0
  plot_style_name := ""
  color_value := 0
  color_name := ""
  transparency := 0
  spline := dxf_spline_init

/-- the state threaded through the nested AcDbSpline sub-loop of
`dxf_helix_read` (`helix.c` lines 391-398 reset these indices). -/
structure HelixNestSt where
  ent : DxfHelix
  i_x0 : Nat
  i_y0 : Nat
  i_z0 : Nat
  i_knot_value : Nat
  i_weight_value : Nat
  diags : List Diag

/-- the data the nested AcDbSpline sub-loop of `dxf_helix_read` can
touch: the embedded spline member, the running indices, and the
diagnostics.  Every branch of the nested chain (`helix.c` lines 403-488)
writes only these, never a field of the helix itself. -/
structure HelixSplineFields where
  s : DxfSpline
  i_x0 : Nat
  i_y0 : Nat
  i_z0 : Nat
  i_knot_value : Nat
  i_weight_value : Nat
  diags : List Diag

/-- one iteration of the nested AcDbSpline dispatch chain inside
`dxf_helix_read` (`helix.c` lines 401-488), in source order, acting on
the sub-state.  The knot tolerance branch for code `42` also increments
`i_knot_value`, as the source does. -/
def dxf_helix_spline_step_sub (f : HelixSplineFields) (t : Tok) : HelixSplineFields :=
  let s := f.s
  if t.code = 6 then {f with s := updS t.val (fun m => {s with linetype := m}) s}
  else if t.code = 8 then {f with s := updS t.val (fun m => {s with layer := m}) s}
  else if t.code = 10 then
    {f with s := updR t.val (fun q => {s with x0 := Function.update s.x0 f.i_x0 q}) s,
            i_x0 := f.i_x0 + 1}
  else if t.code = 20 then
    {f with s := updR t.val (fun q => {s with y0 := Function.update s.y0 f.i_y0 q}) s,
            i_y0 := f.i_y0 + 1}
  else if t.code = 30 then
    {f with s := updR t.val (fun q => {s with z0 := Function.update s.z0 f.i_z0 q}) s,
            i_z0 := f.i_z0 + 1}
  else if t.code = 40 then
    let s2 := updR t.val
      (fun q => {s with knot_value := Function.update s.knot_value f.i_knot_value q}) s
    {f with s := s2, i_knot_value := f.i_knot_value + 1}
  else if t.code = 41 then
    let s2 := updR t.val
      (fun q => {s with weight_value := Function.update s.weight_value f.i_weight_value q})
      s
    {f with s := s2, i_weight_value := f.i_weight_value + 1}
  else if t.code = 42 then
    {f with s := updR t.val (fun q => {s with knot_tolerance := q}) s,
            i_knot_value := f.i_knot_value + 1}
  else if t.code = 43 then
    {f with s := updR t.val (fun q => {s with control_point_tolerance := q}) s}
  else if t.code = 44 then
    {f with s := updR t.val (fun q => {s with fit_tolerance := q}) s}
  else if t.code = 999 then f
  else {f with diags := f.diags ++ [.unknownTag t.code]}

/-- one iteration of the nested AcDbSpline loop on the full nested state:
the sub-step above applied to the embedded spline member. -/
def dxf_helix_spline_step (st : HelixNestSt) (t : Tok) : HelixNestSt :=
  let r := dxf_helix_spline_step_sub
    ⟨st.ent.spline, st.i_x0, st.i_y0, st.i_z0, st.i_knot_value, st.i_weight_value, st.diags⟩
    t
  ⟨{st.ent with spline := r.s}, r.i_x0, r.i_y0, r.i_z0, r.i_knot_value,
   r.i_weight_value, r.diags⟩

/-- the nested AcDbSpline token loop of `dxf_helix_read`: it runs until
the record sentinel code `0` (the nested grammar has no sentinel of its
own), after which the outer loop condition is false as well, so the whole
read returns. -/
def dxf_helix_spline_loop : List Tok → HelixNestSt → HelixNestSt
  | [], st => st
  | t :: ts, st =>
    if t.code = 0 then st
    else dxf_helix_spline_loop ts (dxf_helix_spline_step st t)

/-- the state threaded through the outer `dxf_helix_read` loop (`i` is
the index for binary graphics data, `helix.c` line 209). -/
structure HelixReadSt where
  ent : DxfHelix
  i : Nat
  diags : List Diag

/-- the outer `dxf_helix_read` token loop (`helix.c` lines 212-602), in
source order.  A `(100, AcDbSpline)` token hands the rest of the token
stream to `dxf_helix_spline_loop`, whose exit on the sentinel also
terminates the outer loop; any other subclass marker value is checked
against AcDbEntity and AcDbHelix and the outer loop continues. -/
def dxf_helix_read_loop : List Tok → HelixReadSt → HelixReadSt
  | [], st => st
  | t :: ts, st =>
    if t.code = 0 then st
    else
      let h := st.ent
      if t.code = 5 then
        dxf_helix_read_loop ts {st with ent := updI t.val (fun n => {h with id_code := n}) h}
      else if t.code = 6 then
        dxf_helix_read_loop ts {st with ent := updS t.val (fun m => {h with linetype := m}) h}
      else if t.code = 8 then
        dxf_helix_read_loop ts {st with ent := updS t.val (fun m => {h with layer := m}) h}
      else if t.code = 10 then
        dxf_helix_read_loop ts {st with ent := updR t.val (fun q => {h with x0 := q}) h}
      else if t.code = 20 then
        dxf_helix_read_loop ts {st with ent := updR t.val (fun q => {h with y0 := q}) h}
      else if t.code = 30 then
        dxf_helix_read_loop ts {st with ent := updR t.val (fun q => {h with z0 := q}) h}
      else if t.code = 11 then
        dxf_helix_read_loop ts {st with ent := updR t.val (fun q => {h with x1 := q}) h}
      else if t.code = 21 then
        dxf_helix_read_loop ts {st with ent := updR t.val (fun q => {h with y1 := q}) h}
      else if t.code = 31 then
        dxf_helix_read_loop ts {st with ent := updR t.val (fun q => {h with z1 := q}) h}
      else if t.code = 12 then
        dxf_helix_read_loop ts {st with ent := updR t.val (fun q => {h with x2 := q}) h}
      else if t.code = 22 then
        dxf_helix_read_loop ts {st with ent := updR t.val (fun q => {h with y2 := q}) h}
      else if t.code = 32 then
        dxf_helix_read_loop ts {st with ent := updR t.val (fun q => {h with z2 := q}) h}
      else if t.code = 39 then
        dxf_helix_read_loop ts {st with ent := updR t.val (fun q => {h with thickness := q}) h}
      else if t.code = 40 then
        dxf_helix_read_loop ts {st with ent := updR t.val (fun q => {h with radius := q}) h}
      else if t.code = 41 then
        dxf_helix_read_loop ts
          {st with ent := updR t.val (fun q => {h with number_of_turns := q}) h}
      else if t.code = 42 then
        dxf_helix_read_loop ts
          {st with ent := updR t.val (fun q => {h with turn_height := q}) h}
      else if t.code = 48 then
        dxf_helix_read_loop ts
          {st with ent := updR t.val (fun q => {h with linetype_scale := q}) h}
      else if t.code = 60 then
        dxf_helix_read_loop ts {st with ent := updI t.val (fun n => {h with visibility := n}) h}
      else if t.code = 62 then
        dxf_helix_read_loop ts {st with ent := updI t.val (fun n => {h with color := n}) h}
      else if t.code = 67 then
        dxf_helix_read_loop ts {st with ent := updI t.val (fun n => {h with paperspace := n}) h}
      else if t.code = 90 then
        dxf_helix_read_loop ts
          {st with ent := updI t.val (fun n => {h with major_release_number := n}) h}
      else if t.code = 91 then
        dxf_helix_read_loop ts
          {st with ent := updI t.val (fun n => {h with maintainance_release_number := n}) h}
      else if t.code = 92 then
        dxf_helix_read_loop ts
          {st with ent := updI t.val (fun n => {h with graphics_data_size := n}) h}
      else if t.code = 100 then
        (match t.val with
         | .s m =>
           if m = "AcDbSpline" then
             let nst := dxf_helix_spline_loop ts ⟨st.ent, 0, 0, 0, 0, 0, st.diags⟩
             {st with ent := nst.ent, diags := nst.diags}
           else if m ≠ "AcDbEntity" ∧ m ≠ "AcDbHelix" then
             dxf_helix_read_loop ts {st with diags := st.diags ++ [.badSubclassMarker m]}
           else dxf_helix_read_loop ts st
         | _ => dxf_helix_read_loop ts st)
      else if t.code = 160 then
        dxf_helix_read_loop ts
          {st with ent := updI t.val (fun n => {h with graphics_data_size := n}) h}
      else if t.code = 280 then
        dxf_helix_read_loop ts
          {st with ent := updI t.val (fun n => {h with constraint_type := n}) h}
      else if t.code = 284 then
        dxf_helix_read_loop ts {st with ent := updI t.val (fun n => {h with shadow_mode := n}) h}
      else if t.code = 290 then
        dxf_helix_read_loop ts {st with ent := updI t.val (fun n => {h with handedness := n}) h}
      else if t.code = 310 then
        dxf_helix_read_loop ts
          {st with
            ent := updS t.val
              (fun m =>
                {h with binary_graphics_data := Function.update h.binary_graphics_data st.i m})
              h,
            i := st.i + 1}
      else if t.code = 330 then
        dxf_helix_read_loop ts
          {st with ent := updS t.val (fun m => {h with dictionary_owner_soft := m}) h}
      else if t.code = 347 then
        dxf_helix_read_loop ts {st with ent := updS t.val (fun m => {h with material := m}) h}
      else if t.code = 360 then
        dxf_helix_read_loop ts
          {st with ent := updS t.val (fun m => {h with dictionary_owner_hard := m}) h}
      else if t.code = 370 then
        dxf_helix_read_loop ts {st with ent := updI t.val (fun n => {h with lineweight := n}) h}
      else if t.code = 390 then
        dxf_helix_read_loop ts
          {st with ent := updS t.val (fun m => {h with plot_style_name := m}) h}
      else if t.code = 420 then
        dxf_helix_read_loop ts {st with ent := updI t.val (fun n => {h with color_value := n}) h}
      else if t.code = 430 then
        dxf_helix_read_loop ts {st with ent := updS t.val (fun m => {h with color_name := m}) h}
      else if t.code = 440 then
        dxf_helix_read_loop ts
          {st with ent := updI t.val (fun n => {h with transparency := n}) h}
      else if t.code = 999 then dxf_helix_read_loop ts st
      else dxf_helix_read_loop ts {st with diags := st.diags ++ [.unknownTag t.code]}

/-- `dxf_helix_read` on a non-NULL file pointer and present entity,
including the post-loop back-fill (`helix.c` lines 603-611). -/
def dxf_helix_read_core (toks : List Tok) (h : DxfHelix) : DxfHelix × List Diag :=
  let st := dxf_helix_read_loop toks ⟨h, 0, []⟩
  let a1 := if st.ent.linetype = "" then {st.ent with linetype := DXF_DEFAULT_LINETYPE}
            else st.ent
  let a2 := if a1.layer = "" then {a1 with layer := DXF_DEFAULT_LAYER} else a1
  (a2, st.diags)

/-- the elevation gate of `dxf_arc_read` (`arc.c` lines 248-250), for a
token whose code is `38`: the branch-taken flag and the elevation
variable after evaluating the condition.  Besides the version bound the
condition also tests the elevation accumulated so far in this decode. -/
def dxf_arc_read_gate38 (ver : Nat) (elevation : Rat) : Bool × Rat :=
  (decide (ver ≤ AutoCAD_11) && decide (elevation ≠ 0), elevation)

/-- the elevation gate of `dxf_dimension_read` (`dimension.c` lines
438-440), for a token whose code is `38`: the third conjunct is the C
assignment `dxf_dimension->elevation = 0.0`, which evaluates to `0.0`,
that is false, after storing `0.0` into the elevation; when the version
bound fails, short-circuit evaluation skips the assignment.  The branch
is never taken. -/
def dxf_dimension_read_gate38 (ver : Nat) (elevation : Rat) : Bool × Rat :=
  if ver ≤ AutoCAD_11 then (false, 0) else (false, elevation)

/-- the elevation gate of `dxf_attdef_read` (`attdef.c` lines 303-305):
the same assignment-instead-of-comparison shape as the dimension gate. -/
def dxf_attdef_read_gate38 (ver : Nat) (elevation : Rat) : Bool × Rat :=
  if ver ≤ AutoCAD_11 then (false, 0) else (false, elevation)

/-- Modelled from the spec: the Version Policy contract of section 4.2,
`isApplicable(descriptor, version)`, evaluated as
`version >= descriptor.minVersion && (descriptor.maxVersion is unset ||
version <= descriptor.maxVersion)`; there is no such shared predicate in
the source, each read branch hard-codes its own test. -/
def isApplicable (minVersion maxVersion : Option Nat) (version : Nat) : Bool :=
  (match minVersion with
   | none => true
   | some v => decide (v ≤ version)) &&
  (match maxVersion with
   | none => true
   | some v => decide (version ≤ v))

/-- every token list below is built from conditional chunks; this pushes
`List.all` through such a chunk. -/
theorem all_ite_nil {α : Type} (p : α → Bool) (c : Prop) [Decidable c]
    (xs : List α) : (if c then xs else []).all p = if c then xs.all p else true := by
  split <;> rfl

/-- the arc read loop distributes over append when the first part holds
no sentinel token. -/
theorem dxf_arc_read_loop_append (ver : Nat) (xs ys : List Tok)
    (st : DxfArc × List Diag) (h : xs.all (fun t => t.code != 0) = true) :
    dxf_arc_read_loop ver (xs ++ ys) st =
      dxf_arc_read_loop ver ys (dxf_arc_read_loop ver xs st) := by
  induction xs generalizing st with
  | nil => rfl
  | cons t ts ih =>
    simp only [List.all_cons, Bool.and_eq_true, bne_iff_ne, ne_eq] at h
    simp only [List.cons_append, dxf_arc_read_loop, if_neg h.1]
    exact ih _ h.2

/-- a projection of the arc entity that no token of the list writes is
unchanged by the read loop. -/
theorem dxf_arc_read_loop_pres {α : Type} (ver : Nat) (k : Int) (f : DxfArc → α)
    (hstep : ∀ st t, t.code ≠ k → f (dxf_arc_read_step ver st t).1 = f st.1)
    (ts : List Tok) (st : DxfArc × List Diag)
    (h : ts.all (fun t => t.code != k) = true) :
    f (dxf_arc_read_loop ver ts st).1 = f st.1 := by
  induction ts generalizing st with
  | nil => rfl
  | cons t ts ih =>
    simp only [List.all_cons, Bool.and_eq_true, bne_iff_ne, ne_eq] at h
    by_cases h0 : t.code = 0
    · simp only [dxf_arc_read_loop, if_pos h0]
    · simp only [dxf_arc_read_loop, if_neg h0]
      rw [ih _ h.2, hstep st t h.1]


/-- effect of the id chunk on the decoded entity. -/
theorem arc_loop_chunk_id (ver : Nat) (a : DxfArc) (st : DxfArc × List Diag) :
    (dxf_arc_read_loop ver (arcWid a) st).1 =
      if a.id_code ≠ -1 then {st.1 with id_code := a.id_code} else st.1 := by
  unfold arcWid; split_ifs <;> rfl

/-- effect of the reactors chunk on the decoded entity: the two `102`
tokens are unknown to the arc grammar, the `330` token stores the soft
owner handle. -/
theorem arc_loop_chunk_reactors (ver : Nat) (a : DxfArc) (st : DxfArc × List Diag) :
    (dxf_arc_read_loop ver (arcWreactors ver a) st).1 =
      if a.dictionary_owner_soft ≠ "" ∧ AutoCAD_14 ≤ ver then
        {st.1 with dictionary_owner_soft := a.dictionary_owner_soft}
      else st.1 := by
  unfold arcWreactors; split_ifs <;> rfl

/-- effect of the xdictionary chunk on the decoded entity. -/
theorem arc_loop_chunk_xdict (ver : Nat) (a : DxfArc) (st : DxfArc × List Diag) :
    (dxf_arc_read_loop ver (arcWxdict ver a) st).1 =
      if a.dictionary_owner_hard ≠ "" ∧ AutoCAD_14 ≤ ver then
        {st.1 with dictionary_owner_hard := a.dictionary_owner_hard}
      else st.1 := by
  unfold arcWxdict; split_ifs <;> rfl

/-- a subclass marker token never changes the decoded entity. -/
theorem arc_loop_chunk_entity (ver : Nat) (st : DxfArc × List Diag) :
    (dxf_arc_read_loop ver (arcWentity ver) st).1 = st.1 := by
  unfold arcWentity; split_ifs <;> rfl

/-- effect of the paperspace chunk on the decoded entity. -/
theorem arc_loop_chunk_paper (ver : Nat) (a : DxfArc) (st : DxfArc × List Diag) :
    (dxf_arc_read_loop ver (arcWpaper a) st).1 =
      if a.paperspace = DXF_PAPERSPACE then {st.1 with paperspace := DXF_PAPERSPACE}
      else st.1 := by
  unfold arcWpaper; split_ifs <;> rfl

/-- effect of the layer chunk on the decoded entity. -/
theorem arc_loop_chunk_layer (ver : Nat) (a : DxfArc) (st : DxfArc × List Diag) :
    (dxf_arc_read_loop ver (arcWlayer a) st).1 = {st.1 with layer := a.layer} := rfl

/-- effect of the linetype chunk on the decoded entity. -/
theorem arc_loop_chunk_ltype (ver : Nat) (a : DxfArc) (st : DxfArc × List Diag) :
    (dxf_arc_read_loop ver (arcWltype a) st).1 =
      if a.linetype ≠ DXF_DEFAULT_LINETYPE then {st.1 with linetype := a.linetype}
      else st.1 := by
  unfold arcWltype; split_ifs <;> rfl

/-- the elevation chunk is empty because `DXF_FLATLAND` is zero. -/
theorem arc_loop_chunk_elev (ver : Nat) (a : DxfArc) (st : DxfArc × List Diag) :
    (dxf_arc_read_loop ver (arcWelev ver a) st).1 = st.1 := by
  unfold arcWelev
  rw [if_neg (by simp [DXF_FLATLAND])]
  rfl

/-- effect of the color chunk on the decoded entity. -/
theorem arc_loop_chunk_color (ver : Nat) (a : DxfArc) (st : DxfArc × List Diag) :
    (dxf_arc_read_loop ver (arcWcolor a) st).1 =
      if a.color ≠ DXF_COLOR_BYLAYER then {st.1 with color := a.color} else st.1 := by
  unfold arcWcolor; split_ifs <;> rfl

/-- effect of the linetype scale chunk on the decoded entity. -/
theorem arc_loop_chunk_scale (ver : Nat) (a : DxfArc) (st : DxfArc × List Diag) :
    (dxf_arc_read_loop ver (arcWscale a) st).1 =
      if a.linetype_scale ≠ 1 then {st.1 with linetype_scale := a.linetype_scale}
      else st.1 := by
  unfold arcWscale; split_ifs <;> rfl

/-- effect of the visibility chunk on the decoded entity. -/
theorem arc_loop_chunk_vis (ver : Nat) (a : DxfArc) (st : DxfArc × List Diag) :
    (dxf_arc_read_loop ver (arcWvis a) st).1 =
      if a.visibility ≠ 0 then {st.1 with visibility := a.visibility} else st.1 := by
  unfold arcWvis; split_ifs <;> rfl

/-- the AcDbCircle marker never changes the decoded entity. -/
theorem arc_loop_chunk_circle (ver : Nat) (st : DxfArc × List Diag) :
    (dxf_arc_read_loop ver (arcWcircle ver) st).1 = st.1 := by
  unfold arcWcircle; split_ifs <;> rfl

/-- effect of the thickness chunk on the decoded entity. -/
theorem arc_loop_chunk_thick (ver : Nat) (a : DxfArc) (st : DxfArc × List Diag) :
    (dxf_arc_read_loop ver (arcWthick a) st).1 =
      if a.thickness ≠ 0 then {st.1 with thickness := a.thickness} else st.1 := by
  unfold arcWthick; split_ifs <;> rfl

/-- effect of the center point and radius chunk on the decoded entity. -/
theorem arc_loop_chunk_geom (ver : Nat) (a : DxfArc) (st : DxfArc × List Diag) :
    (dxf_arc_read_loop ver (arcWgeom a) st).1 =
      {st.1 with x0 := a.x0, y0 := a.y0, z0 := a.z0, radius := a.radius} := rfl

/-- the AcDbArc marker never changes the decoded entity. -/
theorem arc_loop_chunk_arcmark (ver : Nat) (st : DxfArc × List Diag) :
    (dxf_arc_read_loop ver (arcWarcmark ver) st).1 = st.1 := by
  unfold arcWarcmark; split_ifs <;> rfl

/-- effect of the angles chunk on the decoded entity. -/
theorem arc_loop_chunk_angles (ver : Nat) (a : DxfArc) (st : DxfArc × List Diag) :
    (dxf_arc_read_loop ver (arcWangles a) st).1 =
      {st.1 with start_angle := a.start_angle, end_angle := a.end_angle} := rfl

/-- effect of the extrusion chunk on the decoded entity. -/
theorem arc_loop_chunk_extr (ver : Nat) (a : DxfArc) (st : DxfArc × List Diag) :
    (dxf_arc_read_loop ver (arcWextr ver a) st).1 =
      if AutoCAD_12 ≤ ver ∧ a.extr_x0 ≠ 0 ∧ a.extr_y0 ≠ 0 ∧ a.extr_z0 ≠ 1 then
        {st.1 with extr_x0 := a.extr_x0, extr_y0 := a.extr_y0, extr_z0 := a.extr_z0}
      else st.1 := by
  unfold arcWextr; split_ifs <;> rfl

/-- no token of `arcWid` carries the sentinel code zero. -/
theorem arcWid_nz (a : DxfArc) :
    (arcWid a).all (fun t => t.code != 0) = true := by
  unfold arcWid
  split_ifs <;> rfl

/-- no token of `arcWreactors` carries the sentinel code zero. -/
theorem arcWreactors_nz (ver : Nat) (a : DxfArc) :
    (arcWreactors ver a).all (fun t => t.code != 0) = true := by
  unfold arcWreactors
  split_ifs <;> rfl

/-- no token of `arcWxdict` carries the sentinel code zero. -/
theorem arcWxdict_nz (ver : Nat) (a : DxfArc) :
    (arcWxdict ver a).all (fun t => t.code != 0) = true := by
  unfold arcWxdict
  split_ifs <;> rfl

/-- no token of `arcWentity` carries the sentinel code zero. -/
theorem arcWentity_nz (ver : Nat) :
    (arcWentity ver).all (fun t => t.code != 0) = true := by
  unfold arcWentity
  split_ifs <;> rfl

/-- no token of `arcWpaper` carries the sentinel code zero. -/
theorem arcWpaper_nz (a : DxfArc) :
    (arcWpaper a).all (fun t => t.code != 0) = true := by
  unfold arcWpaper
  split_ifs <;> rfl

/-- no token of `arcWlayer` carries the sentinel code zero. -/
theorem arcWlayer_nz (a : DxfArc) :
    (arcWlayer a).all (fun t => t.code != 0) = true := rfl

/-- no token of `arcWltype` carries the sentinel code zero. -/
theorem arcWltype_nz (a : DxfArc) :
    (arcWltype a).all (fun t => t.code != 0) = true := by
  unfold arcWltype
  split_ifs <;> rfl

/-- no token of `arcWelev` carries the sentinel code zero. -/
theorem arcWelev_nz (ver : Nat) (a : DxfArc) :
    (arcWelev ver a).all (fun t => t.code != 0) = true := by
  unfold arcWelev
  rw [if_neg (by simp [DXF_FLATLAND])]
  rfl

/-- no token of `arcWcolor` carries the sentinel code zero. -/
theorem arcWcolor_nz (a : DxfArc) :
    (arcWcolor a).all (fun t => t.code != 0) = true := by
  unfold arcWcolor
  split_ifs <;> rfl

/-- no token of `arcWscale` carries the sentinel code zero. -/
theorem arcWscale_nz (a : DxfArc) :
    (arcWscale a).all (fun t => t.code != 0) = true := by
  unfold arcWscale
  split_ifs <;> rfl

/-- no token of `arcWvis` carries the sentinel code zero. -/
theorem arcWvis_nz (a : DxfArc) :
    (arcWvis a).all (fun t => t.code != 0) = true := by
  unfold arcWvis
  split_ifs <;> rfl

/-- no token of `arcWcircle` carries the sentinel code zero. -/
theorem arcWcircle_nz (ver : Nat) :
    (arcWcircle ver).all (fun t => t.code != 0) = true := by
  unfold arcWcircle
  split_ifs <;> rfl

/-- no token of `arcWthick` carries the sentinel code zero. -/
theorem arcWthick_nz (a : DxfArc) :
    (arcWthick a).all (fun t => t.code != 0) = true := by
  unfold arcWthick
  split_ifs <;> rfl

/-- no token of `arcWgeom` carries the sentinel code zero. -/
theorem arcWgeom_nz (a : DxfArc) :
    (arcWgeom a).all (fun t => t.code != 0) = true := rfl

/-- no token of `arcWarcmark` carries the sentinel code zero. -/
theorem arcWarcmark_nz (ver : Nat) :
    (arcWarcmark ver).all (fun t => t.code != 0) = true := by
  unfold arcWarcmark
  split_ifs <;> rfl

/-- no token of `arcWangles` carries the sentinel code zero. -/
theorem arcWangles_nz (a : DxfArc) :
    (arcWangles a).all (fun t => t.code != 0) = true := rfl

/-- no token of `arcWextr` carries the sentinel code zero. -/
theorem arcWextr_nz (ver : Nat) (a : DxfArc) :
    (arcWextr ver a).all (fun t => t.code != 0) = true := by
  unfold arcWextr
  split_ifs <;> rfl

/-- the read loop over the arc write body decomposes into the per-chunk
loops, since no chunk holds the sentinel. -/
theorem arc_body_loop (ver : Nat) (a : DxfArc) (st : DxfArc × List Diag) :
    dxf_arc_read_loop ver (dxf_arc_write_body ver a) st =
      dxf_arc_read_loop ver (arcWextr ver a)
       (dxf_arc_read_loop ver (arcWangles a)
        (dxf_arc_read_loop ver (arcWarcmark ver)
         (dxf_arc_read_loop ver (arcWgeom a)
          (dxf_arc_read_loop ver (arcWthick a)
           (dxf_arc_read_loop ver (arcWcircle ver)
            (dxf_arc_read_loop ver (arcWvis a)
             (dxf_arc_read_loop ver (arcWscale a)
              (dxf_arc_read_loop ver (arcWcolor a)
               (dxf_arc_read_loop ver (arcWelev ver a)
                (dxf_arc_read_loop ver (arcWltype a)
                 (dxf_arc_read_loop ver (arcWlayer a)
                  (dxf_arc_read_loop ver (arcWpaper a)
                   (dxf_arc_read_loop ver (arcWentity ver)
                    (dxf_arc_read_loop ver (arcWxdict ver a)
                     (dxf_arc_read_loop ver (arcWreactors ver a)
                      (dxf_arc_read_loop ver (arcWid a) st)))))))))))))))) := by
  unfold dxf_arc_write_body
  simp only [List.append_assoc]
  rw [dxf_arc_read_loop_append _ _ _ _ (arcWid_nz a),
      dxf_arc_read_loop_append _ _ _ _ (arcWreactors_nz ver a),
      dxf_arc_read_loop_append _ _ _ _ (arcWxdict_nz ver a),
      dxf_arc_read_loop_append _ _ _ _ (arcWentity_nz ver),
      dxf_arc_read_loop_append _ _ _ _ (arcWpaper_nz a),
      dxf_arc_read_loop_append _ _ _ _ (arcWlayer_nz a),
      dxf_arc_read_loop_append _ _ _ _ (arcWltype_nz a),
      dxf_arc_read_loop_append _ _ _ _ (arcWelev_nz ver a),
      dxf_arc_read_loop_append _ _ _ _ (arcWcolor_nz a),
      dxf_arc_read_loop_append _ _ _ _ (arcWscale_nz a),
      dxf_arc_read_loop_append _ _ _ _ (arcWvis_nz a),
      dxf_arc_read_loop_append _ _ _ _ (arcWcircle_nz ver),
      dxf_arc_read_loop_append _ _ _ _ (arcWthick_nz a),
      dxf_arc_read_loop_append _ _ _ _ (arcWgeom_nz a),
      dxf_arc_read_loop_append _ _ _ _ (arcWarcmark_nz ver),
      dxf_arc_read_loop_append _ _ _ _ (arcWangles_nz a)]

/-- the id_code field after decoding the arc write body. -/
theorem arc_rt_id_code (ver : Nat) (a : DxfArc) (st : DxfArc × List Diag) :
    ((dxf_arc_read_loop ver (dxf_arc_write_body ver a) st).1).id_code =
      if a.id_code ≠ -1 then a.id_code else st.1.id_code := by
  rw [arc_body_loop]
  simp only [arc_loop_chunk_extr, arc_loop_chunk_angles, arc_loop_chunk_arcmark,
    arc_loop_chunk_geom, arc_loop_chunk_thick, arc_loop_chunk_circle, arc_loop_chunk_vis,
    arc_loop_chunk_scale, arc_loop_chunk_color, arc_loop_chunk_elev, arc_loop_chunk_ltype,
    arc_loop_chunk_layer, arc_loop_chunk_paper, arc_loop_chunk_entity, arc_loop_chunk_xdict,
    arc_loop_chunk_reactors, arc_loop_chunk_id, apply_ite DxfArc.id_code, ite_self]

/-- the linetype field after decoding the arc write body. -/
theorem arc_rt_linetype (ver : Nat) (a : DxfArc) (st : DxfArc × List Diag) :
    ((dxf_arc_read_loop ver (dxf_arc_write_body ver a) st).1).linetype =
      if a.linetype ≠ DXF_DEFAULT_LINETYPE then a.linetype else st.1.linetype := by
  rw [arc_body_loop]
  simp only [arc_loop_chunk_extr, arc_loop_chunk_angles, arc_loop_chunk_arcmark,
    arc_loop_chunk_geom, arc_loop_chunk_thick, arc_loop_chunk_circle, arc_loop_chunk_vis,
    arc_loop_chunk_scale, arc_loop_chunk_color, arc_loop_chunk_elev, arc_loop_chunk_ltype,
    arc_loop_chunk_layer, arc_loop_chunk_paper, arc_loop_chunk_entity, arc_loop_chunk_xdict,
    arc_loop_chunk_reactors, arc_loop_chunk_id, apply_ite DxfArc.linetype, ite_self]

/-- the layer field after decoding the arc write body. -/
theorem arc_rt_layer (ver : Nat) (a : DxfArc) (st : DxfArc × List Diag) :
    ((dxf_arc_read_loop ver (dxf_arc_write_body ver a) st).1).layer =
      a.layer := by
  rw [arc_body_loop]
  simp only [arc_loop_chunk_extr, arc_loop_chunk_angles, arc_loop_chunk_arcmark,
    arc_loop_chunk_geom, arc_loop_chunk_thick, arc_loop_chunk_circle, arc_loop_chunk_vis,
    arc_loop_chunk_scale, arc_loop_chunk_color, arc_loop_chunk_elev, arc_loop_chunk_ltype,
    arc_loop_chunk_layer, arc_loop_chunk_paper, arc_loop_chunk_entity, arc_loop_chunk_xdict,
    arc_loop_chunk_reactors, arc_loop_chunk_id, apply_ite DxfArc.layer, ite_self]

/-- the x0 field after decoding the arc write body. -/
theorem arc_rt_x0 (ver : Nat) (a : DxfArc) (st : DxfArc × List Diag) :
    ((dxf_arc_read_loop ver (dxf_arc_write_body ver a) st).1).x0 =
      a.x0 := by
  rw [arc_body_loop]
  simp only [arc_loop_chunk_extr, arc_loop_chunk_angles, arc_loop_chunk_arcmark,
    arc_loop_chunk_geom, arc_loop_chunk_thick, arc_loop_chunk_circle, arc_loop_chunk_vis,
    arc_loop_chunk_scale, arc_loop_chunk_color, arc_loop_chunk_elev, arc_loop_chunk_ltype,
    arc_loop_chunk_layer, arc_loop_chunk_paper, arc_loop_chunk_entity, arc_loop_chunk_xdict,
    arc_loop_chunk_reactors, arc_loop_chunk_id, apply_ite DxfArc.x0, ite_self]

/-- the y0 field after decoding the arc write body. -/
theorem arc_rt_y0 (ver : Nat) (a : DxfArc) (st : DxfArc × List Diag) :
    ((dxf_arc_read_loop ver (dxf_arc_write_body ver a) st).1).y0 =
      a.y0 := by
  rw [arc_body_loop]
  simp only [arc_loop_chunk_extr, arc_loop_chunk_angles, arc_loop_chunk_arcmark,
    arc_loop_chunk_geom, arc_loop_chunk_thick, arc_loop_chunk_circle, arc_loop_chunk_vis,
    arc_loop_chunk_scale, arc_loop_chunk_color, arc_loop_chunk_elev, arc_loop_chunk_ltype,
    arc_loop_chunk_layer, arc_loop_chunk_paper, arc_loop_chunk_entity, arc_loop_chunk_xdict,
    arc_loop_chunk_reactors, arc_loop_chunk_id, apply_ite DxfArc.y0, ite_self]

/-- the z0 field after decoding the arc write body. -/
theorem arc_rt_z0 (ver : Nat) (a : DxfArc) (st : DxfArc × List Diag) :
    ((dxf_arc_read_loop ver (dxf_arc_write_body ver a) st).1).z0 =
      a.z0 := by
  rw [arc_body_loop]
  simp only [arc_loop_chunk_extr, arc_loop_chunk_angles, arc_loop_chunk_arcmark,
    arc_loop_chunk_geom, arc_loop_chunk_thick, arc_loop_chunk_circle, arc_loop_chunk_vis,
    arc_loop_chunk_scale, arc_loop_chunk_color, arc_loop_chunk_elev, arc_loop_chunk_ltype,
    arc_loop_chunk_layer, arc_loop_chunk_paper, arc_loop_chunk_entity, arc_loop_chunk_xdict,
    arc_loop_chunk_reactors, arc_loop_chunk_id, apply_ite DxfArc.z0, ite_self]

/-- the radius field after decoding the arc write body. -/
theorem arc_rt_radius (ver : Nat) (a : DxfArc) (st : DxfArc × List Diag) :
    ((dxf_arc_read_loop ver (dxf_arc_write_body ver a) st).1).radius =
      a.radius := by
  rw [arc_body_loop]
  simp only [arc_loop_chunk_extr, arc_loop_chunk_angles, arc_loop_chunk_arcmark,
    arc_loop_chunk_geom, arc_loop_chunk_thick, arc_loop_chunk_circle, arc_loop_chunk_vis,
    arc_loop_chunk_scale, arc_loop_chunk_color, arc_loop_chunk_elev, arc_loop_chunk_ltype,
    arc_loop_chunk_layer, arc_loop_chunk_paper, arc_loop_chunk_entity, arc_loop_chunk_xdict,
    arc_loop_chunk_reactors, arc_loop_chunk_id, apply_ite DxfArc.radius, ite_self]

/-- the start_angle field after decoding the arc write body. -/
theorem arc_rt_start_angle (ver : Nat) (a : DxfArc) (st : DxfArc × List Diag) :
    ((dxf_arc_read_loop ver (dxf_arc_write_body ver a) st).1).start_angle =
      a.start_angle := by
  rw [arc_body_loop]
  simp only [arc_loop_chunk_extr, arc_loop_chunk_angles, arc_loop_chunk_arcmark,
    arc_loop_chunk_geom, arc_loop_chunk_thick, arc_loop_chunk_circle, arc_loop_chunk_vis,
    arc_loop_chunk_scale, arc_loop_chunk_color, arc_loop_chunk_elev, arc_loop_chunk_ltype,
    arc_loop_chunk_layer, arc_loop_chunk_paper, arc_loop_chunk_entity, arc_loop_chunk_xdict,
    arc_loop_chunk_reactors, arc_loop_chunk_id, apply_ite DxfArc.start_angle, ite_self]

/-- the end_angle field after decoding the arc write body. -/
theorem arc_rt_end_angle (ver : Nat) (a : DxfArc) (st : DxfArc × List Diag) :
    ((dxf_arc_read_loop ver (dxf_arc_write_body ver a) st).1).end_angle =
      a.end_angle := by
  rw [arc_body_loop]
  simp only [arc_loop_chunk_extr, arc_loop_chunk_angles, arc_loop_chunk_arcmark,
    arc_loop_chunk_geom, arc_loop_chunk_thick, arc_loop_chunk_circle, arc_loop_chunk_vis,
    arc_loop_chunk_scale, arc_loop_chunk_color, arc_loop_chunk_elev, arc_loop_chunk_ltype,
    arc_loop_chunk_layer, arc_loop_chunk_paper, arc_loop_chunk_entity, arc_loop_chunk_xdict,
    arc_loop_chunk_reactors, arc_loop_chunk_id, apply_ite DxfArc.end_angle, ite_self]

/-- the elevation field after decoding the arc write body. -/
theorem arc_rt_elevation (ver : Nat) (a : DxfArc) (st : DxfArc × List Diag) :
    ((dxf_arc_read_loop ver (dxf_arc_write_body ver a) st).1).elevation =
      st.1.elevation := by
  rw [arc_body_loop]
  simp only [arc_loop_chunk_extr, arc_loop_chunk_angles, arc_loop_chunk_arcmark,
    arc_loop_chunk_geom, arc_loop_chunk_thick, arc_loop_chunk_circle, arc_loop_chunk_vis,
    arc_loop_chunk_scale, arc_loop_chunk_color, arc_loop_chunk_elev, arc_loop_chunk_ltype,
    arc_loop_chunk_layer, arc_loop_chunk_paper, arc_loop_chunk_entity, arc_loop_chunk_xdict,
    arc_loop_chunk_reactors, arc_loop_chunk_id, apply_ite DxfArc.elevation, ite_self]

/-- the thickness field after decoding the arc write body. -/
theorem arc_rt_thickness (ver : Nat) (a : DxfArc) (st : DxfArc × List Diag) :
    ((dxf_arc_read_loop ver (dxf_arc_write_body ver a) st).1).thickness =
      if a.thickness ≠ 0 then a.thickness else st.1.thickness := by
  rw [arc_body_loop]
  simp only [arc_loop_chunk_extr, arc_loop_chunk_angles, arc_loop_chunk_arcmark,
    arc_loop_chunk_geom, arc_loop_chunk_thick, arc_loop_chunk_circle, arc_loop_chunk_vis,
    arc_loop_chunk_scale, arc_loop_chunk_color, arc_loop_chunk_elev, arc_loop_chunk_ltype,
    arc_loop_chunk_layer, arc_loop_chunk_paper, arc_loop_chunk_entity, arc_loop_chunk_xdict,
    arc_loop_chunk_reactors, arc_loop_chunk_id, apply_ite DxfArc.thickness, ite_self]

/-- the linetype_scale field after decoding the arc write body. -/
theorem arc_rt_linetype_scale (ver : Nat) (a : DxfArc) (st : DxfArc × List Diag) :
    ((dxf_arc_read_loop ver (dxf_arc_write_body ver a) st).1).linetype_scale =
      if a.linetype_scale ≠ 1 then a.linetype_scale else st.1.linetype_scale := by
  rw [arc_body_loop]
  simp only [arc_loop_chunk_extr, arc_loop_chunk_angles, arc_loop_chunk_arcmark,
    arc_loop_chunk_geom, arc_loop_chunk_thick, arc_loop_chunk_circle, arc_loop_chunk_vis,
    arc_loop_chunk_scale, arc_loop_chunk_color, arc_loop_chunk_elev, arc_loop_chunk_ltype,
    arc_loop_chunk_layer, arc_loop_chunk_paper, arc_loop_chunk_entity, arc_loop_chunk_xdict,
    arc_loop_chunk_reactors, arc_loop_chunk_id, apply_ite DxfArc.linetype_scale, ite_self]

/-- the visibility field after decoding the arc write body. -/
theorem arc_rt_visibility (ver : Nat) (a : DxfArc) (st : DxfArc × List Diag) :
    ((dxf_arc_read_loop ver (dxf_arc_write_body ver a) st).1).visibility =
      if a.visibility ≠ 0 then a.visibility else st.1.visibility := by
  rw [arc_body_loop]
  simp only [arc_loop_chunk_extr, arc_loop_chunk_angles, arc_loop_chunk_arcmark,
    arc_loop_chunk_geom, arc_loop_chunk_thick, arc_loop_chunk_circle, arc_loop_chunk_vis,
    arc_loop_chunk_scale, arc_loop_chunk_color, arc_loop_chunk_elev, arc_loop_chunk_ltype,
    arc_loop_chunk_layer, arc_loop_chunk_paper, arc_loop_chunk_entity, arc_loop_chunk_xdict,
    arc_loop_chunk_reactors, arc_loop_chunk_id, apply_ite DxfArc.visibility, ite_self]

/-- the color field after decoding the arc write body. -/
theorem arc_rt_color (ver : Nat) (a : DxfArc) (st : DxfArc × List Diag) :
    ((dxf_arc_read_loop ver (dxf_arc_write_body ver a) st).1).color =
      if a.color ≠ DXF_COLOR_BYLAYER then a.color else st.1.color := by
  rw [arc_body_loop]
  simp only [arc_loop_chunk_extr, arc_loop_chunk_angles, arc_loop_chunk_arcmark,
    arc_loop_chunk_geom, arc_loop_chunk_thick, arc_loop_chunk_circle, arc_loop_chunk_vis,
    arc_loop_chunk_scale, arc_loop_chunk_color, arc_loop_chunk_elev, arc_loop_chunk_ltype,
    arc_loop_chunk_layer, arc_loop_chunk_paper, arc_loop_chunk_entity, arc_loop_chunk_xdict,
    arc_loop_chunk_reactors, arc_loop_chunk_id, apply_ite DxfArc.color, ite_self]

/-- the paperspace field after decoding the arc write body. -/
theorem arc_rt_paperspace (ver : Nat) (a : DxfArc) (st : DxfArc × List Diag) :
    ((dxf_arc_read_loop ver (dxf_arc_write_body ver a) st).1).paperspace =
      if a.paperspace = DXF_PAPERSPACE then DXF_PAPERSPACE else st.1.paperspace := by
  rw [arc_body_loop]
  simp only [arc_loop_chunk_extr, arc_loop_chunk_angles, arc_loop_chunk_arcmark,
    arc_loop_chunk_geom, arc_loop_chunk_thick, arc_loop_chunk_circle, arc_loop_chunk_vis,
    arc_loop_chunk_scale, arc_loop_chunk_color, arc_loop_chunk_elev, arc_loop_chunk_ltype,
    arc_loop_chunk_layer, arc_loop_chunk_paper, arc_loop_chunk_entity, arc_loop_chunk_xdict,
    arc_loop_chunk_reactors, arc_loop_chunk_id, apply_ite DxfArc.paperspace, ite_self]

/-- the extr_x0 field after decoding the arc write body. -/
theorem arc_rt_extr_x0 (ver : Nat) (a : DxfArc) (st : DxfArc × List Diag) :
    ((dxf_arc_read_loop ver (dxf_arc_write_body ver a) st).1).extr_x0 =
      if AutoCAD_12 ≤ ver ∧ a.extr_x0 ≠ 0 ∧ a.extr_y0 ≠ 0 ∧ a.extr_z0 ≠ 1 then a.extr_x0 else st.1.extr_x0 := by
  rw [arc_body_loop]
  simp only [arc_loop_chunk_extr, arc_loop_chunk_angles, arc_loop_chunk_arcmark,
    arc_loop_chunk_geom, arc_loop_chunk_thick, arc_loop_chunk_circle, arc_loop_chunk_vis,
    arc_loop_chunk_scale, arc_loop_chunk_color, arc_loop_chunk_elev, arc_loop_chunk_ltype,
    arc_loop_chunk_layer, arc_loop_chunk_paper, arc_loop_chunk_entity, arc_loop_chunk_xdict,
    arc_loop_chunk_reactors, arc_loop_chunk_id, apply_ite DxfArc.extr_x0, ite_self]

/-- the extr_y0 field after decoding the arc write body. -/
theorem arc_rt_extr_y0 (ver : Nat) (a : DxfArc) (st : DxfArc × List Diag) :
    ((dxf_arc_read_loop ver (dxf_arc_write_body ver a) st).1).extr_y0 =
      if AutoCAD_12 ≤ ver ∧ a.extr_x0 ≠ 0 ∧ a.extr_y0 ≠ 0 ∧ a.extr_z0 ≠ 1 then a.extr_y0 else st.1.extr_y0 := by
  rw [arc_body_loop]
  simp only [arc_loop_chunk_extr, arc_loop_chunk_angles, arc_loop_chunk_arcmark,
    arc_loop_chunk_geom, arc_loop_chunk_thick, arc_loop_chunk_circle, arc_loop_chunk_vis,
    arc_loop_chunk_scale, arc_loop_chunk_color, arc_loop_chunk_elev, arc_loop_chunk_ltype,
    arc_loop_chunk_layer, arc_loop_chunk_paper, arc_loop_chunk_entity, arc_loop_chunk_xdict,
    arc_loop_chunk_reactors, arc_loop_chunk_id, apply_ite DxfArc.extr_y0, ite_self]

/-- the extr_z0 field after decoding the arc write body. -/
theorem arc_rt_extr_z0 (ver : Nat) (a : DxfArc) (st : DxfArc × List Diag) :
    ((dxf_arc_read_loop ver (dxf_arc_write_body ver a) st).1).extr_z0 =
      if AutoCAD_12 ≤ ver ∧ a.extr_x0 ≠ 0 ∧ a.extr_y0 ≠ 0 ∧ a.extr_z0 ≠ 1 then a.extr_z0 else st.1.extr_z0 := by
  rw [arc_body_loop]
  simp only [arc_loop_chunk_extr, arc_loop_chunk_angles, arc_loop_chunk_arcmark,
    arc_loop_chunk_geom, arc_loop_chunk_thick, arc_loop_chunk_circle, arc_loop_chunk_vis,
    arc_loop_chunk_scale, arc_loop_chunk_color, arc_loop_chunk_elev, arc_loop_chunk_ltype,
    arc_loop_chunk_layer, arc_loop_chunk_paper, arc_loop_chunk_entity, arc_loop_chunk_xdict,
    arc_loop_chunk_reactors, arc_loop_chunk_id, apply_ite DxfArc.extr_z0, ite_self]

/-- the dictionary_owner_soft field after decoding the arc write body. -/
theorem arc_rt_dictionary_owner_soft (ver : Nat) (a : DxfArc) (st : DxfArc × List Diag) :
    ((dxf_arc_read_loop ver (dxf_arc_write_body ver a) st).1).dictionary_owner_soft =
      if a.dictionary_owner_soft ≠ "" ∧ AutoCAD_14 ≤ ver then a.dictionary_owner_soft else st.1.dictionary_owner_soft := by
  rw [arc_body_loop]
  simp only [arc_loop_chunk_extr, arc_loop_chunk_angles, arc_loop_chunk_arcmark,
    arc_loop_chunk_geom, arc_loop_chunk_thick, arc_loop_chunk_circle, arc_loop_chunk_vis,
    arc_loop_chunk_scale, arc_loop_chunk_color, arc_loop_chunk_elev, arc_loop_chunk_ltype,
    arc_loop_chunk_layer, arc_loop_chunk_paper, arc_loop_chunk_entity, arc_loop_chunk_xdict,
    arc_loop_chunk_reactors, arc_loop_chunk_id, apply_ite DxfArc.dictionary_owner_soft, ite_self]

/-- the dictionary_owner_hard field after decoding the arc write body. -/
theorem arc_rt_dictionary_owner_hard (ver : Nat) (a : DxfArc) (st : DxfArc × List Diag) :
    ((dxf_arc_read_loop ver (dxf_arc_write_body ver a) st).1).dictionary_owner_hard =
      if a.dictionary_owner_hard ≠ "" ∧ AutoCAD_14 ≤ ver then a.dictionary_owner_hard else st.1.dictionary_owner_hard := by
  rw [arc_body_loop]
  simp only [arc_loop_chunk_extr, arc_loop_chunk_angles, arc_loop_chunk_arcmark,
    arc_loop_chunk_geom, arc_loop_chunk_thick, arc_loop_chunk_circle, arc_loop_chunk_vis,
    arc_loop_chunk_scale, arc_loop_chunk_color, arc_loop_chunk_elev, arc_loop_chunk_ltype,
    arc_loop_chunk_layer, arc_loop_chunk_paper, arc_loop_chunk_entity, arc_loop_chunk_xdict,
    arc_loop_chunk_reactors, arc_loop_chunk_id, apply_ite DxfArc.dictionary_owner_hard, ite_self]

/-- parent-grammar fields are untouched by one nested AcDbSpline step:
the step only rebuilds the embedded spline member. -/
theorem helix_nest_step_parent (st : HelixNestSt) (t : Tok) :
    (dxf_helix_spline_step st t).ent.radius = st.ent.radius ∧
    (dxf_helix_spline_step st t).ent.turn_height = st.ent.turn_height ∧
    (dxf_helix_spline_step st t).ent.number_of_turns = st.ent.number_of_turns :=
  ⟨rfl, rfl, rfl⟩

/-- parent-grammar fields are untouched by the whole nested AcDbSpline
loop, however long it runs. -/
theorem helix_nest_loop_parent (toks : List Tok) (st : HelixNestSt) :
    (dxf_helix_spline_loop toks st).ent.radius = st.ent.radius ∧
    (dxf_helix_spline_loop toks st).ent.turn_height = st.ent.turn_height ∧
    (dxf_helix_spline_loop toks st).ent.number_of_turns = st.ent.number_of_turns := by
  induction toks generalizing st with
  | nil => exact ⟨rfl, rfl, rfl⟩
  | cons t ts ih =>
    by_cases h0 : t.code = 0
    · rw [show dxf_helix_spline_loop (t :: ts) st =
          if t.code = 0 then st else dxf_helix_spline_loop ts (dxf_helix_spline_step st t)
          from rfl,
        if_pos h0]
      exact ⟨rfl, rfl, rfl⟩
    · rw [show dxf_helix_spline_loop (t :: ts) st =
          if t.code = 0 then st else dxf_helix_spline_loop ts (dxf_helix_spline_step st t)
          from rfl,
        if_neg h0]
      obtain ⟨i1, i2, i3⟩ := ih (dxf_helix_spline_step st t)
      obtain ⟨s1, s2, s3⟩ := helix_nest_step_parent st t
      exact ⟨i1.trans s1, i2.trans s2, i3.trans s3⟩

/-- a token whose code is unknown to the arc grammar only appends an
unknown-tag diagnostic. -/
theorem arc_step_unknown (ver : Nat) (st : DxfArc × List Diag) (c : Int) (v : TVal)
    (h : ∀ k ∈ ([0,5,6,8,10,11,20,21,30,31,38,39,40,48,50,51,60,62,67,100,210,220,230,330,360,999] : List Int), c ≠ k) :
    dxf_arc_read_step ver st ⟨c, v⟩ = (st.1, st.2 ++ [.unknownTag c]) := by
  rw [dxf_arc_read_step.eq_def]
  rw [if_neg (h 5 (by decide)), if_neg (h 6 (by decide)), if_neg (h 8 (by decide)),
      if_neg (h 10 (by decide)), if_neg (h 20 (by decide)), if_neg (h 30 (by decide)),
      if_neg (h 38 (by decide)), if_neg (h 39 (by decide)), if_neg (h 40 (by decide)),
      if_neg (h 48 (by decide)), if_neg (h 50 (by decide)), if_neg (h 51 (by decide)),
      if_neg (h 60 (by decide)), if_neg (h 62 (by decide)), if_neg (h 67 (by decide)),
      if_neg (h 100 (by decide)), if_neg (h 210 (by decide)), if_neg (h 220 (by decide)),
      if_neg (h 230 (by decide)), if_neg (h 330 (by decide)), if_neg (h 360 (by decide)),
      if_neg (h 999 (by decide))]

/-- a token whose code is unknown to the line grammar only appends an
unknown-tag diagnostic. -/
theorem line_step_unknown (ver : Nat) (st : DxfLine × List Diag) (c : Int) (v : TVal)
    (h : ∀ k ∈ ([0,5,6,8,10,11,20,21,30,31,38,39,40,48,50,51,60,62,67,100,210,220,230,330,360,999] : List Int), c ≠ k) :
    dxf_line_read_step ver st ⟨c, v⟩ = (st.1, st.2 ++ [.unknownTag c]) := by
  rw [dxf_line_read_step.eq_def]
  rw [if_neg (h 5 (by decide)), if_neg (h 6 (by decide)), if_neg (h 8 (by decide)),
      if_neg (h 10 (by decide)), if_neg (h 20 (by decide)), if_neg (h 30 (by decide)),
      if_neg (h 11 (by decide)), if_neg (h 21 (by decide)), if_neg (h 31 (by decide)),
      if_neg (h 38 (by decide)), if_neg (h 39 (by decide)), if_neg (h 48 (by decide)),
      if_neg (h 60 (by decide)), if_neg (h 62 (by decide)), if_neg (h 67 (by decide)),
      if_neg (h 100 (by decide)), if_neg (h 210 (by decide)), if_neg (h 220 (by decide)),
      if_neg (h 230 (by decide)), if_neg (h 330 (by decide)), if_neg (h 360 (by decide)),
      if_neg (h 999 (by decide))]

/-- the token stream `dxf_arc_write` emits on a valid, normalized arc:
the type-announcing pair followed by the write body. -/
theorem arc_write_tokens_valid (ver : Nat) (a : DxfArc)
    (hangle : a.start_angle ≠ a.end_angle)
    (hs360 : ¬ (360 : Rat) < a.start_angle) (hs0 : ¬ a.start_angle < 0)
    (he360 : ¬ (360 : Rat) < a.end_angle) (he0 : ¬ a.end_angle < 0)
    (hrad : a.radius ≠ 0) (hlt : a.linetype ≠ "") (hly : a.layer ≠ "") :
    (dxf_arc_write ver a).tokens = ⟨0, .s "ARC"⟩ :: dxf_arc_write_body ver a := by
  unfold dxf_arc_write
  rw [if_neg hangle, if_neg hs360, if_neg hs0, if_neg he360, if_neg he0, if_neg hrad]
  simp only [if_neg hlt, if_neg hly]

/-- Claim C1, counterexample: the round-trip property fails as stated.
The arc below is normalized (nonblank linetype and layer) and encodes
successfully at R14, yet its paperspace value 2 is silently dropped
(`dxf_arc_write` emits code 67 only when paperspace equals
`DXF_PAPERSPACE`), so decoding the output yields a different entity. -/
theorem claim_C1_counterexample :
    (dxf_arc_read_core 14
        (((dxf_arc_write 14
            {dxf_arc_init with radius := 1, end_angle := 90, paperspace := 2}).tokens).drop 1)
        dxf_arc_init).1 ≠
      {dxf_arc_init with radius := 1, end_angle := 90, paperspace := 2} := by
  decide

/-- Claim C1, amended: `dxf_arc_read` applied to the output of
`dxf_arc_write` (minus the consumed type-announcing pair) recovers the
original arc, provided the arc is normalized (nonblank linetype and
layer), has valid geometry (distinct angles within 0..360 and a nonzero
radius), an id code other than -1, zero elevation, an extrusion vector
that is either all zero or actually emitted at the target version,
a paperspace flag of 0 or 1, and dictionary owners that are either empty
or written at the target version (R14 and later). -/
theorem claim_C1_round_trip (ver : Nat) (a : DxfArc)
    (hlt : a.linetype ≠ "") (hly : a.layer ≠ "")
    (hangle : a.start_angle ≠ a.end_angle)
    (hs360 : a.start_angle ≤ 360) (hs0 : 0 ≤ a.start_angle)
    (he360 : a.end_angle ≤ 360) (he0 : 0 ≤ a.end_angle)
    (hrad : a.radius ≠ 0) (hid : a.id_code ≠ -1) (helev : a.elevation = 0)
    (hextr : (a.extr_x0 = 0 ∧ a.extr_y0 = 0 ∧ a.extr_z0 = 0) ∨
             (AutoCAD_12 ≤ ver ∧ a.extr_x0 ≠ 0 ∧ a.extr_y0 ≠ 0 ∧ a.extr_z0 ≠ 1))
    (hps : a.paperspace = DXF_MODELSPACE ∨ a.paperspace = DXF_PAPERSPACE)
    (hdict : AutoCAD_14 ≤ ver ∨
             (a.dictionary_owner_soft = "" ∧ a.dictionary_owner_hard = "")) :
    (dxf_arc_read_core ver (((dxf_arc_write ver a).tokens).drop 1) dxf_arc_init).1 = a := by
  rw [arc_write_tokens_valid ver a hangle (not_lt.mpr hs360) (not_lt.mpr hs0)
        (not_lt.mpr he360) (not_lt.mpr he0) hrad hlt hly]
  show (dxf_arc_read_core ver (dxf_arc_write_body ver a) dxf_arc_init).1 = a
  unfold dxf_arc_read_core
  have hlt2 : ((dxf_arc_read_loop ver (dxf_arc_write_body ver a) (dxf_arc_init, [])).1).linetype ≠ "" := by
    rw [arc_rt_linetype]
    split_ifs with hc
    · exact hlt
    · intro hx; exact absurd hx (by simp [dxf_arc_init, DXF_DEFAULT_LINETYPE])
  have hly2 : ((dxf_arc_read_loop ver (dxf_arc_write_body ver a) (dxf_arc_init, [])).1).layer ≠ "" := by
    rw [arc_rt_layer]
    exact hly
  unfold dxf_arc_read_post
  simp only [if_neg hlt2]
  simp only [if_neg hly2]
  ext
  · rw [arc_rt_id_code, if_pos hid]
  · rw [arc_rt_linetype]
    split_ifs with hc
    · rfl
    · simp only [ne_eq, Decidable.not_not] at hc
      rw [hc]; rfl
  · rw [arc_rt_layer]
  · rw [arc_rt_x0]
  · rw [arc_rt_y0]
  · rw [arc_rt_z0]
  · rw [arc_rt_extr_x0]
    rcases hextr with ⟨hx, hy, hz⟩ | hall
    · rw [if_neg (by intro hcon; exact hcon.2.1 hx), hx]; rfl
    · rw [if_pos hall]
  · rw [arc_rt_extr_y0]
    rcases hextr with ⟨hx, hy, hz⟩ | hall
    · rw [if_neg (by intro hcon; exact hcon.2.1 hx), hy]; rfl
    · rw [if_pos hall]
  · rw [arc_rt_extr_z0]
    rcases hextr with ⟨hx, hy, hz⟩ | hall
    · rw [if_neg (by intro hcon; exact hcon.2.1 hx), hz]; rfl
    · rw [if_pos hall]
  · rw [arc_rt_elevation, helev]; rfl
  · rw [arc_rt_thickness]
    split_ifs with hc
    · rfl
    · simp only [ne_eq, Decidable.not_not] at hc
      rw [hc]; rfl
  · rw [arc_rt_linetype_scale]
    split_ifs with hc
    · rfl
    · simp only [ne_eq, Decidable.not_not] at hc
      rw [hc]; rfl
  · rw [arc_rt_visibility]
    split_ifs with hc
    · rfl
    · simp only [ne_eq, Decidable.not_not] at hc
      rw [hc]; rfl
  · rw [arc_rt_radius]
  · rw [arc_rt_start_angle]
  · rw [arc_rt_end_angle]
  · rw [arc_rt_color]
    split_ifs with hc
    · rfl
    · simp only [ne_eq, Decidable.not_not] at hc
      rw [hc]; rfl
  · rw [arc_rt_paperspace]
    rcases hps with h | h
    · rw [if_neg (by rw [h]; decide), h]; rfl
    · rw [if_pos h, h]
  · rw [arc_rt_dictionary_owner_soft]
    by_cases hs : a.dictionary_owner_soft = ""
    · rw [if_neg (by intro hcon; exact hcon.1 hs), hs]; rfl
    · rcases hdict with h14 | ⟨h1, _⟩
      · rw [if_pos ⟨hs, h14⟩]
      · exact absurd h1 hs
  · rw [arc_rt_dictionary_owner_hard]
    by_cases hs : a.dictionary_owner_hard = ""
    · rw [if_neg (by intro hcon; exact hcon.1 hs), hs]; rfl
    · rcases hdict with h14 | ⟨_, h2⟩
      · rw [if_pos ⟨hs, h14⟩]
      · exact absurd h2 hs

/-- Claim C1, witness: the amended round-trip at version 14 on a concrete
valid arc. -/
theorem claim_C1_round_trip_witness :
    (dxf_arc_read_core 14
        (((dxf_arc_write 14 {dxf_arc_init with radius := 1, end_angle := 90}).tokens).drop 1)
        dxf_arc_init).1 =
      {dxf_arc_init with radius := 1, end_angle := 90} := by
  exact claim_C1_round_trip 14 {dxf_arc_init with radius := 1, end_angle := 90}
    (by decide) (by decide) (by decide) (by decide) (by decide) (by decide) (by decide)
    (by decide) (by decide) (by decide) (Or.inl (by decide)) (Or.inl (by decide))
    (Or.inl (by decide))

/-- Claim C2, counterexample: repeat-group boundaries are not inferred
from recurrence of the leading code 10.  Three vertices given as
`(10 20) (10 20) (10 20)` collapse into a single vertex holding the last
values, because `dxf_lwpolyline_read` advances to a fresh vertex only on
the bulge code 42. -/
theorem claim_C2_counterexample :
    ((dxf_lwpolyline_read_core 14
        [⟨10, .r 1⟩, ⟨20, .r 1⟩, ⟨10, .r 2⟩, ⟨20, .r 2⟩, ⟨10, .r 3⟩, ⟨20, .r 3⟩]
        dxf_lwpolyline_init).1.vertices).length = 1 ∧
    (dxf_lwpolyline_read_core 14
        [⟨10, .r 1⟩, ⟨20, .r 1⟩, ⟨10, .r 2⟩, ⟨20, .r 2⟩, ⟨10, .r 3⟩, ⟨20, .r 3⟩]
        dxf_lwpolyline_init).1.vertices = [⟨3, 3, 0, 0, 0⟩] := by
  decide

/-- Claim C2, amended: `dxf_lwpolyline_read` closes a repeat unit only on
the bulge code 42 (the last member of the vertex group), so a sequence of
three complete `(10 20 42)` vertex groups decodes into exactly those
three vertices followed by one trailing unused node; and
`dxf_spline_read` keeps an independent running index per member code, so
the i-th occurrence of codes 10, 20, 30 lands in slot i of the
corresponding control point array, whatever values appear in between. -/
theorem claim_C2_repeat_groups (ver : Nat) (x1 y1 b1 x2 y2 b2 x3 y3 b3 : Rat) :
    (dxf_lwpolyline_read_core ver
        [⟨10, .r x1⟩, ⟨20, .r y1⟩, ⟨42, .r b1⟩,
         ⟨10, .r x2⟩, ⟨20, .r y2⟩, ⟨42, .r b2⟩,
         ⟨10, .r x3⟩, ⟨20, .r y3⟩, ⟨42, .r b3⟩]
        dxf_lwpolyline_init).1.vertices =
      [⟨x1, y1, 0, 0, b1⟩, ⟨x2, y2, 0, 0, b2⟩, ⟨x3, y3, 0, 0, b3⟩, dxf_vertex_new] ∧
    ((dxf_spline_read_core ver
        [⟨10, .r x1⟩, ⟨20, .r y1⟩, ⟨30, .r b1⟩,
         ⟨10, .r x2⟩, ⟨20, .r y2⟩, ⟨30, .r b2⟩,
         ⟨10, .r x3⟩, ⟨20, .r y3⟩, ⟨30, .r b3⟩]
        dxf_spline_init).1.x0 0 = x1 ∧
     (dxf_spline_read_core ver [⟨10, .r x1⟩, ⟨20, .r y1⟩, ⟨30, .r b1⟩,
         ⟨10, .r x2⟩, ⟨20, .r y2⟩, ⟨30, .r b2⟩,
         ⟨10, .r x3⟩, ⟨20, .r y3⟩, ⟨30, .r b3⟩] dxf_spline_init).1.x0 1 = x2 ∧
     (dxf_spline_read_core ver [⟨10, .r x1⟩, ⟨20, .r y1⟩, ⟨30, .r b1⟩,
         ⟨10, .r x2⟩, ⟨20, .r y2⟩, ⟨30, .r b2⟩,
         ⟨10, .r x3⟩, ⟨20, .r y3⟩, ⟨30, .r b3⟩] dxf_spline_init).1.x0 2 = x3 ∧
     (dxf_spline_read_core ver [⟨10, .r x1⟩, ⟨20, .r y1⟩, ⟨30, .r b1⟩,
         ⟨10, .r x2⟩, ⟨20, .r y2⟩, ⟨30, .r b2⟩,
         ⟨10, .r x3⟩, ⟨20, .r y3⟩, ⟨30, .r b3⟩] dxf_spline_init).1.y0 0 = y1 ∧
     (dxf_spline_read_core ver [⟨10, .r x1⟩, ⟨20, .r y1⟩, ⟨30, .r b1⟩,
         ⟨10, .r x2⟩, ⟨20, .r y2⟩, ⟨30, .r b2⟩,
         ⟨10, .r x3⟩, ⟨20, .r y3⟩, ⟨30, .r b3⟩] dxf_spline_init).1.z0 0 = b1) :=
  ⟨rfl, rfl, rfl, rfl, rfl, rfl⟩

/-- Claim C3, counterexample: `dxf_spline_write` accepts version R13 and
then emits the lineweight pair (code 370, an R2004-and-later field)
unconditionally, so a field whose minimum version exceeds the target
version does appear in the output. -/
theorem claim_C3_counterexample :
    (dxf_spline_write AutoCAD_13 dxf_spline_init).ok = true ∧
    ⟨370, .i 0⟩ ∈ (dxf_spline_write AutoCAD_13 dxf_spline_init).tokens ∧
    AutoCAD_13 < AutoCAD_2004 := by
  refine ⟨rfl, by decide, by decide⟩

/-- Claim C3, amended: `dxf_arc_write` does gate its fields by version
(no subclass marker 100 below R13, no extrusion codes 210, 220, 230 below
R12, no dictionary-owner groups 102, 330, 360 below R14), and a decode
that meets an out-of-version code records an unknown-tag diagnostic and
continues; but `dxf_spline_write` emits its R2004/R2007 fields
(lineweight 370, shadow mode 284, graphics data size 92, color value
420, transparency 440) unconditionally at every accepted version. -/
theorem claim_C3_version_gating :
    (∀ (ver : Nat) (a : DxfArc), ver < AutoCAD_13 →
      (dxf_arc_write_body ver a).all (fun t => t.code != 100) = true) ∧
    (∀ (ver : Nat) (a : DxfArc), ver < AutoCAD_12 →
      (dxf_arc_write_body ver a).all
        (fun t => t.code != 210 && t.code != 220 && t.code != 230) = true) ∧
    (∀ (ver : Nat) (a : DxfArc), ver < AutoCAD_14 →
      (dxf_arc_write_body ver a).all
        (fun t => t.code != 102 && t.code != 330 && t.code != 360) = true) ∧
    (∀ (ver : Nat) (s : DxfSpline), AutoCAD_13 ≤ ver →
      ⟨370, .i s.lineweight⟩ ∈ (dxf_spline_write ver s).tokens ∧
      ⟨284, .i s.shadow_mode⟩ ∈ (dxf_spline_write ver s).tokens ∧
      ⟨92, .i s.graphics_data_size⟩ ∈ (dxf_spline_write ver s).tokens ∧
      ⟨420, .i s.color_value⟩ ∈ (dxf_spline_write ver s).tokens ∧
      ⟨440, .i s.transparency⟩ ∈ (dxf_spline_write ver s).tokens) ∧
    (∀ (ver : Nat) (v : TVal) (toks : List Tok) (st : DxfArc × List Diag),
      dxf_arc_read_loop ver (⟨370, v⟩ :: toks) st =
        dxf_arc_read_loop ver toks (st.1, st.2 ++ [.unknownTag 370])) := by
  refine ⟨?_, ?_, ?_, ?_, ?_⟩
  · intro ver a h
    have h13 : ¬ AutoCAD_13 ≤ ver := Nat.not_le.mpr h
    unfold dxf_arc_write_body arcWid arcWreactors arcWxdict arcWentity arcWpaper arcWlayer
      arcWltype arcWelev arcWcolor arcWscale arcWvis arcWcircle arcWthick arcWgeom
      arcWarcmark arcWangles arcWextr
    simp [all_ite_nil, h13, DXF_FLATLAND]
  · intro ver a h
    have h12 : ¬ AutoCAD_12 ≤ ver := Nat.not_le.mpr h
    unfold dxf_arc_write_body arcWid arcWreactors arcWxdict arcWentity arcWpaper arcWlayer
      arcWltype arcWelev arcWcolor arcWscale arcWvis arcWcircle arcWthick arcWgeom
      arcWarcmark arcWangles arcWextr
    simp [all_ite_nil, h12, DXF_FLATLAND]
  · intro ver a h
    have h14 : ¬ AutoCAD_14 ≤ ver := Nat.not_le.mpr h
    unfold dxf_arc_write_body arcWid arcWreactors arcWxdict arcWentity arcWpaper arcWlayer
      arcWltype arcWelev arcWcolor arcWscale arcWvis arcWcircle arcWthick arcWgeom
      arcWarcmark arcWangles arcWextr
    simp [all_ite_nil, h14, DXF_FLATLAND]
  · intro ver s h
    unfold dxf_spline_write
    rw [if_neg (Nat.not_lt.mpr h)]
    refine ⟨?_, ?_, ?_, ?_, ?_⟩ <;>
      (split_ifs <;>
        simp [dxf_spline_write_body, apply_ite DxfSpline.lineweight,
          apply_ite DxfSpline.shadow_mode, apply_ite DxfSpline.graphics_data_size,
          apply_ite DxfSpline.color_value, apply_ite DxfSpline.transparency])
  · intro ver v toks st
    rfl

/-- Claim C3, witness: the amended statement at version 12 (below R13) on
a concrete arc, at version 13 on a concrete spline, and on a concrete
out-of-version token. -/
theorem claim_C3_version_gating_witness :
    (dxf_arc_write_body 12 dxf_arc_init).all (fun t => t.code != 100) = true ∧
    (dxf_arc_write_body 11 dxf_arc_init).all
      (fun t => t.code != 210 && t.code != 220 && t.code != 230) = true ∧
    (dxf_arc_write_body 13 dxf_arc_init).all
      (fun t => t.code != 102 && t.code != 330 && t.code != 360) = true ∧
    ⟨370, .i dxf_spline_init.lineweight⟩ ∈ (dxf_spline_write 13 dxf_spline_init).tokens ∧
    dxf_arc_read_loop 13 [⟨370, .i 25⟩] (dxf_arc_init, []) =
      dxf_arc_read_loop 13 [] (dxf_arc_init, [] ++ [.unknownTag 370]) := by
  refine ⟨claim_C3_version_gating.1 12 dxf_arc_init (by decide),
          claim_C3_version_gating.2.1 11 dxf_arc_init (by decide),
          claim_C3_version_gating.2.2.1 13 dxf_arc_init (by decide),
          (claim_C3_version_gating.2.2.2.1 13 dxf_spline_init (by decide)).1,
          claim_C3_version_gating.2.2.2.2 13 (.i 25) [] (dxf_arc_init, [])⟩

/-- Claim C4: the claim says version applicability is the pure predicate
`isApplicable` over the descriptor bounds alone; the code disagrees, and
this is a defect of the code (the dimension and attdef gates even contain
an assignment in place of a comparison).  At version R11 the spec
predicate accepts the elevation field (code 38, gated to versions up to
R11), but the arc gate also consults the elevation accumulated so far in
the same decode (false on a fresh entity, true once elevation is
nonzero), the dimension and attdef gates always evaluate to false while
clobbering the elevation to zero as a side effect, and a full arc decode
of a code-38 token on a fresh entity drops the value with an unknown-tag
diagnostic. -/
theorem claim_C4_version_gate_impure :
    isApplicable none (some AutoCAD_11) AutoCAD_11 = true ∧
    dxf_arc_read_gate38 AutoCAD_11 0 = (false, 0) ∧
    dxf_arc_read_gate38 AutoCAD_11 7 = (true, 7) ∧
    dxf_dimension_read_gate38 AutoCAD_11 7 = (false, 0) ∧
    dxf_attdef_read_gate38 AutoCAD_11 7 = (false, 0) ∧
    (dxf_arc_read_core AutoCAD_11 [⟨38, .r 5⟩] dxf_arc_init).1.elevation = 0 ∧
    (dxf_arc_read_core AutoCAD_11 [⟨38, .r 5⟩] dxf_arc_init).2 = [.unknownTag 38] := by
  decide

/-- Claim C5, counterexample: after the AcDbSpline marker the helix
reader never pops back to the parent grammar.  In the record below the
sub-record is followed by the parent marker AcDbHelix and a code-42 pair;
the claim says the 42 should be read under the parent grammar as the turn
height, but the code keeps the nested spline grammar active, stores it as
the spline knot tolerance, and reports the second 100 as an unknown tag
of the nested grammar. -/
theorem claim_C5_counterexample :
    ¬ ((dxf_helix_read_core
          [⟨100, .s "AcDbSpline"⟩, ⟨100, .s "AcDbHelix"⟩, ⟨42, .r 5⟩]
          dxf_helix_init).1.turn_height = 5) ∧
    (dxf_helix_read_core
        [⟨100, .s "AcDbSpline"⟩, ⟨100, .s "AcDbHelix"⟩, ⟨42, .r 5⟩]
        dxf_helix_init).1.spline.knot_tolerance = 5 ∧
    (dxf_helix_read_core
        [⟨100, .s "AcDbSpline"⟩, ⟨100, .s "AcDbHelix"⟩, ⟨42, .r 5⟩]
        dxf_helix_init).2 = [.unknownTag 100] := by
  refine ⟨by decide, rfl, rfl⟩

/-- Claim C5, amended: a subclass-marker token naming the nested
AcDbSpline grammar switches `dxf_helix_read` to that grammar for all
remaining tokens of the record, up to the record sentinel; the nested
grammar is never popped, so the parent-grammar fields radius (40), number
of turns (41) and turn height (42) can never be modified after the
switch, and the codes 40 and 42 that follow the marker are stored into
the embedded spline instead. -/
theorem claim_C5_nested_grammar (toks : List Tok) (st : HelixReadSt) (q : Rat) :
    ((dxf_helix_read_loop (⟨100, .s "AcDbSpline"⟩ :: toks) st).ent.radius =
        st.ent.radius ∧
     (dxf_helix_read_loop (⟨100, .s "AcDbSpline"⟩ :: toks) st).ent.turn_height =
        st.ent.turn_height ∧
     (dxf_helix_read_loop (⟨100, .s "AcDbSpline"⟩ :: toks) st).ent.number_of_turns =
        st.ent.number_of_turns) ∧
    (dxf_helix_read_loop [⟨100, .s "AcDbSpline"⟩, ⟨40, .r q⟩] st).ent.spline.knot_value 0 = q ∧
    (dxf_helix_read_loop [⟨100, .s "AcDbSpline"⟩, ⟨42, .r q⟩] st).ent.spline.knot_tolerance = q := by
  refine ⟨?_, ?_, ?_⟩
  · have hshow : dxf_helix_read_loop (⟨100, .s "AcDbSpline"⟩ :: toks) st =
        {st with ent := (dxf_helix_spline_loop toks ⟨st.ent, 0, 0, 0, 0, 0, st.diags⟩).ent,
                 diags := (dxf_helix_spline_loop toks ⟨st.ent, 0, 0, 0, 0, 0, st.diags⟩).diags} := rfl
    rw [hshow]
    exact helix_nest_loop_parent toks ⟨st.ent, 0, 0, 0, 0, 0, st.diags⟩
  · rfl
  · rfl

/-- Claim C6: pre-encode validation rejects degenerate geometry
atomically.  An arc whose start angle equals its end angle or whose
radius is zero, and a line whose start and end points coincide in all
three coordinates, make the write calls return failure having emitted no
token at all. -/
theorem claim_C6_degenerate_rejected (ver : Nat) (a : DxfArc) (l : DxfLine)
    (ha : a.start_angle = a.end_angle ∨ a.radius = 0)
    (hl : l.x0 = l.x1 ∧ l.y0 = l.y1 ∧ l.z0 = l.z1) :
    ((dxf_arc_write ver a).ok = false ∧ (dxf_arc_write ver a).tokens = []) ∧
    ((dxf_line_write ver l).ok = false ∧ (dxf_line_write ver l).tokens = []) := by
  constructor
  · unfold dxf_arc_write
    split_ifs <;> simp_all
  · unfold dxf_line_write
    rw [if_pos hl]
    exact ⟨rfl, rfl⟩

/-- Claim C6, witness: the freshly initialized arc (angles both zero) and
line (both endpoints at the origin) are degenerate and rejected with no
output. -/
theorem claim_C6_degenerate_rejected_witness :
    (((dxf_arc_write 14 dxf_arc_init).ok = false ∧
      (dxf_arc_write 14 dxf_arc_init).tokens = []) ∧
     ((dxf_line_write 14 dxf_line_init).ok = false ∧
      (dxf_line_write 14 dxf_line_init).tokens = [])) := by
  exact claim_C6_degenerate_rejected 14 dxf_arc_init dxf_line_init
    (Or.inl (by decide)) (by decide)

/-- Claim C7, counterexample: `dxf_arc_write` does mutate its input.  On
an arc with an empty linetype the entity the caller passed holds the
default linetype after the call returns, not the empty string it held
before. -/
theorem claim_C7_counterexample :
    (dxf_arc_write 14 {dxf_arc_init with linetype := "", radius := 1, end_angle := 90}).entity ≠
      {dxf_arc_init with linetype := "", radius := 1, end_angle := 90} := by
  decide

/-- Claim C7, amended: the write calls leave the entity unchanged,
success or failure, provided the linetype and layer strings are nonempty;
the only in-place normalization the sources perform is resetting an empty
linetype or layer to the format default. -/
theorem claim_C7_write_no_mutation (ver : Nat) (a : DxfArc) (s : DxfSpline)
    (hlt : a.linetype ≠ "") (hly : a.layer ≠ "")
    (hslt : s.linetype ≠ "") (hsly : s.layer ≠ "") :
    (dxf_arc_write ver a).entity = a ∧ (dxf_spline_write ver s).entity = s := by
  constructor
  · unfold dxf_arc_write
    split_ifs <;> first
      | rfl
      | (simp only [if_neg hlt, if_neg hly])
  · unfold dxf_spline_write
    split_ifs <;> first
      | rfl
      | (simp only [if_neg hslt, if_neg hsly])

/-- Claim C7, witness: the amended statement on the freshly initialized
arc and spline, whose linetype and layer are the nonempty defaults. -/
theorem claim_C7_write_no_mutation_witness :
    (dxf_arc_write 14 dxf_arc_init).entity = dxf_arc_init ∧
    (dxf_spline_write 14 dxf_spline_init).entity = dxf_spline_init := by
  exact claim_C7_write_no_mutation 14 dxf_arc_init dxf_spline_init
    (by decide) (by decide) (by decide) (by decide)

/-- Claim C8, counterexample: the claim takes the extrusion default to be
the vector (0, 0, 1).  An arc whose extrusion is exactly (0, 0, 1) is
indeed written with no extrusion token (codes 210/220/230 absent, as the
omission rule demands), but decoding the resulting record does not give
that default back: the reader leaves the freshly initialized extrusion
(0, 0, 0), so the decoded z-component is 0, not 1. -/
theorem claim_C8_counterexample :
    ((dxf_arc_write_body 14 {dxf_arc_init with extr_z0 := 1}).all
        (fun t => t.code != 210 && t.code != 220 && t.code != 230) = true) ∧
    ¬ ((dxf_arc_read_core 14
          (dxf_arc_write_body 14 {dxf_arc_init with extr_z0 := 1})
          dxf_arc_init).1.extr_z0 = 1) := by
  decide

/-- Claim C8, amended: default omission holds for the defaults the code
actually initializes with (extrusion (0, 0, 0), not (0, 0, 1)).  For an
arc whose optional fields all hold those initialization defaults, the
encoded body contains no token for any of them (linetype 6, color 62,
visibility 60, thickness 39, linetype scale 48, paperspace 67, elevation
38, extrusion 210/220/230, dictionary owners 330/360 and their 102
wrappers), decoding the body onto a fresh entity returns the value
unchanged, and conversely each such field is emitted whenever its value
differs from its default. -/
theorem claim_C8_default_omission (ver : Nat) (a : DxfArc)
    (h1 : a.linetype = DXF_DEFAULT_LINETYPE) (h2 : a.color = DXF_COLOR_BYLAYER)
    (h3 : a.visibility = 0) (h4 : a.thickness = 0) (h5 : a.linetype_scale = 1)
    (h6 : a.elevation = 0) (h7 : a.paperspace = DXF_MODELSPACE)
    (h8 : a.extr_x0 = 0) (h9 : a.extr_y0 = 0) (h10 : a.extr_z0 = 0)
    (h11 : a.dictionary_owner_soft = "") (h12 : a.dictionary_owner_hard = "")
    (hid : a.id_code ≠ -1) (hlay : a.layer ≠ "") :
    ((dxf_arc_write_body ver a).all
        (fun t => t.code != 6 && t.code != 62 && t.code != 60 && t.code != 39 &&
                  t.code != 48 && t.code != 67 && t.code != 38 && t.code != 210 &&
                  t.code != 220 && t.code != 230 && t.code != 330 && t.code != 360 &&
                  t.code != 102) = true) ∧
    (dxf_arc_read_core ver (dxf_arc_write_body ver a) dxf_arc_init).1 = a ∧
    (∀ b : DxfArc, b.linetype ≠ DXF_DEFAULT_LINETYPE →
      ⟨6, .s b.linetype⟩ ∈ dxf_arc_write_body ver b) ∧
    (∀ b : DxfArc, b.color ≠ DXF_COLOR_BYLAYER →
      ⟨62, .i b.color⟩ ∈ dxf_arc_write_body ver b) ∧
    (∀ b : DxfArc, b.visibility ≠ 0 → ⟨60, .i b.visibility⟩ ∈ dxf_arc_write_body ver b) ∧
    (∀ b : DxfArc, b.thickness ≠ 0 → ⟨39, .r b.thickness⟩ ∈ dxf_arc_write_body ver b) ∧
    (∀ b : DxfArc, b.linetype_scale ≠ 1 →
      ⟨48, .r b.linetype_scale⟩ ∈ dxf_arc_write_body ver b) ∧
    (∀ b : DxfArc, b.paperspace = DXF_PAPERSPACE →
      ⟨67, .i DXF_PAPERSPACE⟩ ∈ dxf_arc_write_body ver b) := by
  refine ⟨?_, ?_, ?_, ?_, ?_, ?_, ?_, ?_⟩
  · unfold dxf_arc_write_body arcWid arcWreactors arcWxdict arcWentity arcWpaper arcWlayer
      arcWltype arcWelev arcWcolor arcWscale arcWvis arcWcircle arcWthick arcWgeom
      arcWarcmark arcWangles arcWextr
    simp [all_ite_nil, h1, h2, h3, h4, h5, h6, h7, h8, h11, h12, DXF_FLATLAND,
      DXF_MODELSPACE, DXF_PAPERSPACE]
  · have hlt2 : ((dxf_arc_read_loop ver (dxf_arc_write_body ver a) (dxf_arc_init, [])).1).linetype ≠ "" := by
      rw [arc_rt_linetype]
      split_ifs
      · rw [h1]; simp [DXF_DEFAULT_LINETYPE]
      · simp [dxf_arc_init, DXF_DEFAULT_LINETYPE]
    have hly2 : ((dxf_arc_read_loop ver (dxf_arc_write_body ver a) (dxf_arc_init, [])).1).layer ≠ "" := by
      rw [arc_rt_layer]
      exact hlay
    unfold dxf_arc_read_core dxf_arc_read_post
    simp only [if_neg hlt2]
    simp only [if_neg hly2]
    ext
    · rw [arc_rt_id_code, if_pos hid]
    · rw [arc_rt_linetype]
      split_ifs with hc
      · rfl
      · rw [h1]; rfl
    · rw [arc_rt_layer]
    · rw [arc_rt_x0]
    · rw [arc_rt_y0]
    · rw [arc_rt_z0]
    · rw [arc_rt_extr_x0, if_neg (by intro hcon; exact hcon.2.1 h8), h8]; rfl
    · rw [arc_rt_extr_y0, if_neg (by intro hcon; exact hcon.2.1 h8), h9]; rfl
    · rw [arc_rt_extr_z0, if_neg (by intro hcon; exact hcon.2.1 h8), h10]; rfl
    · rw [arc_rt_elevation, h6]; rfl
    · rw [arc_rt_thickness, if_neg (by simp [h4]), h4]; rfl
    · rw [arc_rt_linetype_scale, if_neg (by simp [h5]), h5]; rfl
    · rw [arc_rt_visibility, if_neg (by simp [h3]), h3]; rfl
    · rw [arc_rt_radius]
    · rw [arc_rt_start_angle]
    · rw [arc_rt_end_angle]
    · rw [arc_rt_color, if_neg (by simp [h2]), h2]; rfl
    · rw [arc_rt_paperspace, if_neg (by rw [h7]; decide), h7]; rfl
    · rw [arc_rt_dictionary_owner_soft, if_neg (by intro hcon; exact hcon.1 h11), h11]; rfl
    · rw [arc_rt_dictionary_owner_hard, if_neg (by intro hcon; exact hcon.1 h12), h12]; rfl
  · intro b hb
    unfold dxf_arc_write_body arcWid arcWreactors arcWxdict arcWentity arcWpaper arcWlayer
      arcWltype arcWelev arcWcolor arcWscale arcWvis arcWcircle arcWthick arcWgeom
      arcWarcmark arcWangles arcWextr
    simp [hb]
  · intro b hb
    unfold dxf_arc_write_body arcWid arcWreactors arcWxdict arcWentity arcWpaper arcWlayer
      arcWltype arcWelev arcWcolor arcWscale arcWvis arcWcircle arcWthick arcWgeom
      arcWarcmark arcWangles arcWextr
    simp [hb]
  · intro b hb
    unfold dxf_arc_write_body arcWid arcWreactors arcWxdict arcWentity arcWpaper arcWlayer
      arcWltype arcWelev arcWcolor arcWscale arcWvis arcWcircle arcWthick arcWgeom
      arcWarcmark arcWangles arcWextr
    simp [hb]
  · intro b hb
    unfold dxf_arc_write_body arcWid arcWreactors arcWxdict arcWentity arcWpaper arcWlayer
      arcWltype arcWelev arcWcolor arcWscale arcWvis arcWcircle arcWthick arcWgeom
      arcWarcmark arcWangles arcWextr
    simp [hb]
  · intro b hb
    unfold dxf_arc_write_body arcWid arcWreactors arcWxdict arcWentity arcWpaper arcWlayer
      arcWltype arcWelev arcWcolor arcWscale arcWvis arcWcircle arcWthick arcWgeom
      arcWarcmark arcWangles arcWextr
    simp [hb]
  · intro b hb
    unfold dxf_arc_write_body arcWid arcWreactors arcWxdict arcWentity arcWpaper arcWlayer
      arcWltype arcWelev arcWcolor arcWscale arcWvis arcWcircle arcWthick arcWgeom
      arcWarcmark arcWangles arcWextr
    simp [hb]

/-- Claim C8, witness: the freshly initialized arc holds every default,
so its body omits all optional-field tokens and decodes back to itself;
and an arc with thickness 2 does emit the code-39 token. -/
theorem claim_C8_default_omission_witness :
    ((dxf_arc_write_body 14 dxf_arc_init).all
        (fun t => t.code != 6 && t.code != 62 && t.code != 60 && t.code != 39 &&
                  t.code != 48 && t.code != 67 && t.code != 38 && t.code != 210 &&
                  t.code != 220 && t.code != 230 && t.code != 330 && t.code != 360 &&
                  t.code != 102) = true) ∧
    (dxf_arc_read_core 14 (dxf_arc_write_body 14 dxf_arc_init) dxf_arc_init).1 = dxf_arc_init ∧
    ⟨39, .r 2⟩ ∈ dxf_arc_write_body 14 {dxf_arc_init with thickness := 2} := by
  have h := claim_C8_default_omission 14 dxf_arc_init rfl rfl rfl rfl rfl rfl rfl rfl rfl rfl
    rfl rfl (by decide) (by decide)
  exact ⟨h.1, h.2.1, h.2.2.2.2.2.1 {dxf_arc_init with thickness := 2} (by decide)⟩

/-- Claim C9: unknown-code tolerance.  A token whose code matches no
descriptor of the arc or line grammar (none of the codes the dispatch
chains test, and not the sentinel 0) makes the read loop record an
unknown-tag diagnostic for that token and continue on the remaining
tokens with the entity state untouched; and a read call with a file
present never fails, whatever the token stream contains. -/
theorem claim_C9_unknown_code_tolerance (ver : Nat) (c : Int) (v : TVal) (toks : List Tok)
    (sta : DxfArc × List Diag) (stl : DxfLine × List Diag)
    (hc : c ∉ ([0,5,6,8,10,11,20,21,30,31,38,39,40,48,50,51,60,62,67,100,210,220,230,330,360,999] : List Int)) :
    (dxf_arc_read_loop ver (⟨c, v⟩ :: toks) sta =
       dxf_arc_read_loop ver toks (sta.1, sta.2 ++ [.unknownTag c])) ∧
    (dxf_line_read_loop ver (⟨c, v⟩ :: toks) stl =
       dxf_line_read_loop ver toks (stl.1, stl.2 ++ [.unknownTag c])) ∧
    (∀ f arc, dxf_arc_read (some f) arc ≠ none) := by
  have hk : ∀ k ∈ ([0,5,6,8,10,11,20,21,30,31,38,39,40,48,50,51,60,62,67,100,210,220,230,330,360,999] : List Int), c ≠ k :=
    fun k hkmem he => hc (he ▸ hkmem)
  refine ⟨?_, ?_, fun f arc => by simp [dxf_arc_read]⟩
  · rw [show dxf_arc_read_loop ver (⟨c, v⟩ :: toks) sta =
        if (⟨c, v⟩ : Tok).code = 0 then sta
        else dxf_arc_read_loop ver toks (dxf_arc_read_step ver sta ⟨c, v⟩) from rfl]
    rw [if_neg (hk 0 (by decide))]
    rw [arc_step_unknown ver sta c v hk]
  · rw [show dxf_line_read_loop ver (⟨c, v⟩ :: toks) stl =
        if (⟨c, v⟩ : Tok).code = 0 then stl
        else dxf_line_read_loop ver toks (dxf_line_read_step ver stl ⟨c, v⟩) from rfl]
    rw [if_neg (hk 0 (by decide))]
    rw [line_step_unknown ver stl c v hk]

/-- Claim C9, witness: the text-style code 7, unknown to both grammars,
is diagnosed and skipped on fresh arc and line entities. -/
theorem claim_C9_unknown_code_tolerance_witness :
    (dxf_arc_read_loop 14 [⟨7, .s "STYLE"⟩] (dxf_arc_init, []) =
       dxf_arc_read_loop 14 [] (dxf_arc_init, [] ++ [.unknownTag 7])) ∧
    (dxf_line_read_loop 14 [⟨7, .s "STYLE"⟩] (dxf_line_init, []) =
       dxf_line_read_loop 14 [] (dxf_line_init, [] ++ [.unknownTag 7])) ∧
    (∀ f arc, dxf_arc_read (some f) arc ≠ none) := by
  exact claim_C9_unknown_code_tolerance 14 7 (.s "STYLE") [] (dxf_arc_init, [])
    (dxf_line_init, []) (by decide)

/-- Claim C10: NULL tolerance at the read interface.  With no file the
read calls return none without touching the entity; with a file and no
entity they allocate a fresh entity carrying the documented defaults
(default linetype and layer, color BYLAYER, modelspace) and decode into
it; and with a file present the calls never return none, so a missing
entity argument is never an error. -/
theorem claim_C10_null_tolerance :
    (∀ arc, dxf_arc_read none arc = none) ∧
    (∀ f : DxfFileIn, dxf_arc_read (some f) none =
        some (dxf_arc_read_core f.acad_version_number f.toks dxf_arc_init)) ∧
    dxf_arc_init.linetype = DXF_DEFAULT_LINETYPE ∧
    dxf_arc_init.layer = DXF_DEFAULT_LAYER ∧
    dxf_arc_init.color = DXF_COLOR_BYLAYER ∧
    dxf_arc_init.paperspace = DXF_MODELSPACE ∧
    (∀ f arc, dxf_arc_read (some f) arc ≠ none) ∧
    (∀ line, dxf_line_read none line = none) ∧
    (∀ f : DxfFileIn, dxf_line_read (some f) none =
        some (dxf_line_read_core f.acad_version_number f.toks dxf_line_init)) ∧
    dxf_line_init.linetype = DXF_DEFAULT_LINETYPE ∧
    dxf_line_init.layer = DXF_DEFAULT_LAYER ∧
    dxf_line_init.color = DXF_COLOR_BYLAYER ∧
    dxf_line_init.paperspace = DXF_MODELSPACE ∧
    (∀ f line, dxf_line_read (some f) line ≠ none) := by
  refine ⟨fun arc => rfl, fun f => rfl, rfl, rfl, rfl, rfl, fun f arc => by simp [dxf_arc_read],
          fun line => rfl, fun f => rfl, rfl, rfl, rfl, rfl, fun f line => by simp [dxf_line_read]⟩
